import Mathlib

/-
Verification of the Solar Factions "simple" simulation core
(src/simple/game_loop.py, ai_system.py, movement_system.py,
game_manager.py, entities/entity.py) via a shallow embedding.

Modelling conventions, used throughout:
* Python floats are modelled as rationals (ℚ); the properties verified here
  are structural (ordering, clamping, selection, early returns), not about
  floating-point rounding.
* `math.sqrt` is modelled by `sqrtQ` below, which agrees with the real square
  root on perfect-square rationals — the only inputs at which any theorem in
  this file depends on its value.  `math.cos`/`math.sin` are modelled by
  polynomial stand-ins `cosQ`/`sinQ`; no theorem depends on their values.
* Free-form Python dict values (`Dict[str, Any]`) are modelled by the `PyVal`
  inductive; dicts keyed by strings are association lists updated in place
  (matching Python dict insertion-order semantics).
* A Python exception raised inside a behavior is modelled by an `Option String`
  error field carried next to the state reached at the raise point (Python
  mutates in place, so partial mutations survive a raise).
* `random.uniform` draws are modelled by consuming an explicit list of
  pre-supplied rational values.
-/

namespace SolarFactions

/-- A Python runtime value, as stored in free-form `Dict[str, Any]` payloads
(goal_data, blackboard): strings, ints, floats, 2-tuples of floats, `None`. -/
inductive PyVal where
  | str : String → PyVal
  | int : ℤ → PyVal
  | num : ℚ → PyVal
  | pair : ℚ → ℚ → PyVal
  | pynone : PyVal
  deriving Repr, DecidableEq

/-- Python truthiness of a `PyVal` (`if not target: ...`). -/
def PyVal.truthy : PyVal → Bool
  | .str s => s ≠ ""
  | .int n => n ≠ 0
  | .num q => q ≠ 0
  | .pair _ _ => true
  | .pynone => false

/-- Read a `PyVal` as a list index: Python indexing requires an `int`
(anything else raises `TypeError`). -/
def PyVal.toIndex : PyVal → Option ℤ
  | .int n => some n
  | _ => none

/-- Read a `PyVal` as a number (`int` or `float`); other values make numeric
comparisons raise `TypeError` in Python 3. -/
def PyVal.toNum : PyVal → Option ℚ
  | .int n => some (n : ℚ)
  | .num q => some q
  | _ => none

/-- Model of `d.get(k)` on an insertion-ordered dict modelled as an association list. -/
def assocGet (d : List (String × α)) (k : String) : Option α :=
  (d.find? (fun p => p.1 = k)).map Prod.snd

/-- Model of `d[k] = v` on an insertion-ordered dict: overwrite in place if the key is
present, else append (Python dict insertion-order semantics). -/
def assocSet (d : List (String × α)) (k : String) (v : α) : List (String × α) :=
  if d.any (fun p => p.1 = k) then
    d.map (fun p => if p.1 = k then (k, v) else p)
  else d ++ [(k, v)]

/-- Python list indexing `xs[i]`: negative indices count from the end;
`none` models an `IndexError`. -/
def pyListGet (xs : List α) (i : ℤ) : Option α :=
  let j : ℤ := if i < 0 then (xs.length : ℤ) + i else i
  if 0 ≤ j then xs.get? j.toNat else none

/-- Model of `math.sqrt` on rationals.  Exact on perfect-square rationals
(e.g. `sqrtQ 2500 = 50`, `sqrtQ 0 = 0`), which are the only inputs at which
any theorem below depends on its value. -/
def sqrtQ (q : ℚ) : ℚ :=
  (Nat.sqrt q.num.toNat : ℚ) / (Nat.sqrt q.den : ℚ)

/-- Polynomial stand-in for `math.cos`; no theorem depends on its values. -/
def cosQ (x : ℚ) : ℚ := 1 - x ^ 2 / 2 + x ^ 4 / 24

/-- Polynomial stand-in for `math.sin`; no theorem depends on its values. -/
def sinQ (x : ℚ) : ℚ := x - x ^ 3 / 6

/-- Squared-distance helper: the argument handed to `math.sqrt` by the
`math.sqrt((bx-ax)**2 + (by-ay)**2)` pattern in the source. -/
def distQ (a b : ℚ × ℚ) : ℚ :=
  sqrtQ ((b.1 - a.1) ^ 2 + (b.2 - a.2) ^ 2)

/-! ## Game loop (src/simple/game_loop.py)

`GameState` is the dataclass of game_loop.py; `GameLoop` keeps the fields the
verified operations touch (the thread handles, callback lists and frame-side
statistics are wall-clock/presentation bookkeeping outside the embedded
logic).  An advance returns the delta-time value it passed to every update
callback (`_update_game_logic(dt)` forwards the same `dt` to each registered
system in order), `none` when no advance happened. -/

/-- Mirror of the `GameState` dataclass (game_loop.py lines 13-27). -/
structure GameState where
  tick : ℕ := 0
  game_time : ℚ := 0
  real_time : ℚ := 0
  is_running : Bool := false
  is_paused : Bool := false
  speed_multiplier : ℚ := 1
  target_fps : ℕ := 60
  actual_fps : ℚ := 0
  target_tps : ℕ := 20
  actual_tps : ℚ := 0
  deriving Repr, DecidableEq

/-- The scheduler (game_loop.py `GameLoop.__init__`): `tick_interval` is
`1.0 / target_tps`; `tick_times` is the rolling wall-interval sample window. -/
structure GameLoop where
  state : GameState
  tick_interval : ℚ
  tick_times : List ℚ := []
  max_stat_samples : ℕ := 100
  deriving Repr, DecidableEq

/-- Model of `GameLoop(target_tps, target_fps)` constructor. -/
def GameLoop.create (target_tps target_fps : ℕ) : GameLoop :=
  { state := { target_tps := target_tps, target_fps := target_fps }
    tick_interval := 1 / (target_tps : ℚ) }

/-- The state effect of `GameLoop.start` (lines 78-95): no-op when already
running, otherwise set running and clear paused (thread creation and the
wall-clock timestamps are outside the embedded logic). -/
def GameLoop.start (gl : GameLoop) : GameLoop :=
  if gl.state.is_running then gl
  else { gl with state := { gl.state with is_running := true, is_paused := false } }

/-- Model of `GameLoop.pause` (lines 107-109). -/
def GameLoop.pause (gl : GameLoop) : GameLoop :=
  { gl with state := { gl.state with is_paused := true } }

/-- Model of `GameLoop.resume` (lines 111-113). -/
def GameLoop.resume (gl : GameLoop) : GameLoop :=
  { gl with state := { gl.state with is_paused := false } }

/-- Model of `GameLoop.set_speed` (lines 115-117): clamp to [0.1, 10.0]. -/
def GameLoop.set_speed (gl : GameLoop) (multiplier : ℚ) : GameLoop :=
  { gl with state :=
      { gl.state with speed_multiplier := max (1/10) (min 10 multiplier) } }

/-- Model of `GameLoop.step` (lines 119-129): one forced logic advance.  Returns the
new loop and the delta-time passed to every update callback (`none` when not
running, where the method returns without advancing). -/
def GameLoop.step (gl : GameLoop) : GameLoop × Option ℚ :=
  if gl.state.is_running = false then (gl, none)
  else
    let dt := gl.tick_interval * gl.state.speed_multiplier
    ({ gl with state :=
        { gl.state with
            tick := gl.state.tick + 1
            game_time := gl.state.game_time + dt } }, some dt)

/-- One iteration of the logic-cadence body `GameLoop._game_loop`
(lines 131-164), given the wall-clock time since the last tick and the
wall-clock time since `start()`.  Advances exactly when not paused and the
elapsed time reaches the speed-adjusted interval `tick_interval / speed`;
the delta-time of the advance is `tick_interval * speed`. -/
def GameLoop.loopAdvance (gl : GameLoop) (time_since_last_tick real_now : ℚ) :
    GameLoop × Option ℚ :=
  if gl.state.is_running = false then (gl, none)
  else if gl.state.is_paused then (gl, none)
  else
    let adjusted_interval := gl.tick_interval / gl.state.speed_multiplier
    if time_since_last_tick ≥ adjusted_interval then
      let dt := gl.tick_interval * gl.state.speed_multiplier
      let samples0 := gl.tick_times ++ [time_since_last_tick]
      let samples := if samples0.length > gl.max_stat_samples then
          samples0.drop 1 else samples0
      let avg := samples.sum / (samples.length : ℚ)
      ({ gl with
          state :=
            { gl.state with
                tick := gl.state.tick + 1
                game_time := gl.state.game_time + dt
                real_time := real_now
                actual_tps := if avg > 0 then 1 / avg else 0 }
          tick_times := samples }, some dt)
    else (gl, none)

/-! ## Entities and the persisted 'ai' component (src/simple/entities/entity.py)

Only the fields read or written by the scheduling/arbitration core are
retained: id, type, position, and the single 'ai' component slot (all other
component slots and the property map are opaque to the verified systems).
`ai_component = none` models `entity.get_component('ai')` returning a falsy
value (key missing, or an empty dict).  Python `==` between entities (object
identity — `Entity` defines no `__eq__`) is modelled as structural equality;
entities carry unique ids. -/

/-- The `memory` sub-record of the persisted 'ai' component, as written by
`AISystem._sync_with_ai_component` (ai_system.py lines 602-609): exactly six
keys mirroring `AIMemory`. -/
structure AiComponentMemory where
  last_seen_targets : List (String × (ℚ × ℚ)) := []
  last_seen_times : List (String × ℚ) := []
  current_target : Option String := none
  current_goal : Option String := none
  goal_data : List (String × PyVal) := []
  blackboard : List (String × PyVal) := []
  deriving Repr, DecidableEq

/-- The persisted 'ai' component payload:
`{memory, current_goal, ai_type, aggression_level, intelligence_level}`.
`memory = none` models the 'memory' key being absent or holding an empty
dict (both are falsy in the loader's `if memory_data:` check); the
`current_goal` field holds the stored value, `none` standing for Python
`None` (the key itself is always present in components the code builds). -/
structure AiComponent where
  memory : Option AiComponentMemory := none
  current_goal : Option String := none
  ai_type : String := "basic"
  aggression_level : ℚ := 1/2
  intelligence_level : ℤ := 50
  deriving Repr, DecidableEq

/-- Entity record (entity.py `Entity`), restricted to the fields the loop,
decision and movement subsystems touch.  All entities constructed by the
source carry `id`, `type` and `position` attributes, so the
`hasattr(entity, 'position')` / `hasattr(entity, 'id')` checks of the source
are always true here. -/
structure Entity where
  id : String
  type : String
  position : ℚ × ℚ
  ai_component : Option AiComponent := none
  deriving Repr, DecidableEq

/-! ## Decision subsystem data model (src/simple/ai_system.py) -/

/-- Model of `AIMemory` dataclass (ai_system.py lines 15-23). -/
structure AIMemory where
  last_seen_targets : List (String × (ℚ × ℚ)) := []
  last_seen_times : List (String × ℚ) := []
  current_target : Option String := none
  current_goal : Option String := none
  goal_data : List (String × PyVal) := []
  blackboard : List (String × PyVal) := []
  deriving Repr, DecidableEq

/-- Model of `AIState` dataclass (ai_system.py lines 26-33). -/
structure AIState where
  behavior_name : String := "idle"
  state_time : ℚ := 0
  energy : ℚ := 100
  alertness : ℚ := 0
  memory : AIMemory := {}
  deriving Repr, DecidableEq

/-- Result of running a behavior effect: the decision state reached, plus
`some msg` when the Python code would raise at that point (mutations made
before the raise survive, since Python mutates `ai_state` in place). -/
structure AIExec where
  state : AIState
  error : Option String := none
  deriving Repr, DecidableEq

/-- Model of `IdleBehavior._execute` (lines 70-76).  Source default for
`energy_recovery_rate` is 10.0. -/
def idleExecute (energy_recovery_rate : ℚ) (st : AIState) (dt : ℚ) : AIExec :=
  let st := { st with alertness := max 0 (st.alertness - 1/10 * dt) }
  { state := { st with energy := min 100 (st.energy + energy_recovery_rate * dt) } }

/-- Model of `PatrolBehavior._execute` (lines 85-112).  Source defaults:
`arrival_tolerance` 10.0, `energy_cost` 2.0, `waypoints` `[]`. -/
def patrolExecute (waypoints : List (ℚ × ℚ)) (arrival_tolerance energy_cost : ℚ)
    (entity : Entity) (st : AIState) (dt : ℚ) : AIExec :=
  if waypoints.isEmpty then { state := st }
  else
    match ((assocGet st.memory.goal_data "current_waypoint").getD (.int 0)).toIndex with
    | none => { state := st, error := some "TypeError" }
    | some current_wp =>
      match pyListGet waypoints current_wp with
      | none => { state := st, error := some "IndexError" }
      | some target_pos =>
        let distance := distQ entity.position target_pos
        let st := if distance < arrival_tolerance then
            { st with memory := { st.memory with
                goal_data := assocSet st.memory.goal_data "current_waypoint"
                  (.int ((current_wp + 1) % (waypoints.length : ℤ))) } }
          else st
        let st := { st with memory := { st.memory with
            current_target := none
            goal_data := assocSet st.memory.goal_data "target_position"
              (.pair target_pos.1 target_pos.2) } }
        { state := { st with energy := max 0 (st.energy - energy_cost * dt) } }

/-- The closest-within-radius scan shared by `HuntBehavior._execute`
(lines 132-150) and `FleeBehavior._execute` (lines 194-213): the first
strictly-closer entity of a matching type within `detection_range`, skipping
the scanning entity itself (`float('inf')` initial distance modelled by the
`none` accumulator). -/
def closestOfType (entity : Entity) (target_types : List String)
    (detection_range : ℚ) (entities : List Entity) : Option (Entity × ℚ) :=
  entities.foldl (fun best target =>
    if target = entity then best
    else if target.type ∈ target_types then
      let distance := distQ entity.position target.position
      if distance ≤ detection_range then
        match best with
        | none => some (target, distance)
        | some (_, bd) => if distance < bd then some (target, distance) else best
      else best
    else best) none

/-- Model of `HuntBehavior._execute` (lines 121-175).  Source defaults:
`detection_range` 100.0, `target_types` `['cargo_ship', 'mining_ship']`,
`memory_duration` 10.0, `energy_cost` 5.0. -/
def huntExecute (detection_range : ℚ) (target_types : List String)
    (memory_duration energy_cost : ℚ) (entity : Entity) (st0 : AIState)
    (entities : List Entity) (dt : ℚ) : AIExec :=
  let current_time := st0.state_time
  match closestOfType entity target_types detection_range entities with
  | some (closest_target, _) =>
      let target_id := closest_target.id
      let st := { st0 with memory := { st0.memory with
          last_seen_targets :=
            assocSet st0.memory.last_seen_targets target_id closest_target.position
          last_seen_times := assocSet st0.memory.last_seen_times target_id current_time
          current_target := some target_id
          goal_data := assocSet st0.memory.goal_data "target_position"
            (.pair closest_target.position.1 closest_target.position.2) } }
      let st := { st with alertness := min 100 (st.alertness + 50 * dt) }
      { state := { st with energy := max 0 (st.energy - energy_cost * dt) } }
  | none =>
      let st := { st0 with alertness := max 0 (st0.alertness - 10 * dt) }
      match st.memory.last_seen_times.find?
          (fun p => current_time - p.2 < memory_duration) with
      | some (target_id, _) =>
          let st := { st with memory := { st.memory with
              current_target := some target_id } }
          match assocGet st.memory.last_seen_targets target_id with
          | some pos =>
              let st := { st with memory := { st.memory with
                  goal_data := assocSet st.memory.goal_data "target_position"
                    (.pair pos.1 pos.2) } }
              { state := { st with energy := max 0 (st.energy - energy_cost * dt) } }
          | none => { state := st, error := some "KeyError" }
      | none => { state := { st with energy := max 0 (st.energy - energy_cost * dt) } }

/-- Model of `FleeBehavior._execute` (lines 185-235).  Source defaults:
`detection_range` 80.0, `threat_types` `['fighter']`, `flee_range` 200.0,
`energy_cost` 8.0. -/
def fleeExecute (detection_range : ℚ) (threat_types : List String)
    (flee_range energy_cost : ℚ) (entity : Entity) (st0 : AIState)
    (entities : List Entity) (dt : ℚ) : AIExec :=
  let st := match closestOfType entity threat_types detection_range entities with
    | some (nearest_threat, _) =>
        let fx := entity.position.1 - nearest_threat.position.1
        let fy := entity.position.2 - nearest_threat.position.2
        let flee_distance := sqrtQ (fx ^ 2 + fy ^ 2)
        if flee_distance > 0 then
          let gx := entity.position.1 + fx / flee_distance * flee_range
          let gy := entity.position.2 + fy / flee_distance * flee_range
          let st := { st0 with memory := { st0.memory with
              goal_data := assocSet st0.memory.goal_data "target_position"
                (.pair gx gy) } }
          { st with alertness := min 100 (st.alertness + 30 * dt) }
        else st0
    | none => st0
  { state := { st with energy := max 0 (st.energy - energy_cost * dt) } }

/-- The intruder scan of `GuardBehavior._execute` (lines 259-274): the first
other entity within `alert_range` of the guard position. -/
def firstIntruder (entity : Entity) (guard_position : ℚ × ℚ) (alert_range : ℚ)
    (entities : List Entity) : Option Entity :=
  entities.find? (fun other =>
    other ≠ entity ∧ distQ guard_position other.position ≤ alert_range)

/-- Model of `GuardBehavior._execute` (lines 244-288).  Source defaults:
`guard_position` (0,0), `guard_radius` 100.0, `alert_range` 150.0,
`energy_cost` 3.0. -/
def guardExecute (guard_position : ℚ × ℚ) (guard_radius alert_range energy_cost : ℚ)
    (entity : Entity) (st0 : AIState) (entities : List Entity) (dt : ℚ) : AIExec :=
  let distance_from_post := distQ guard_position entity.position
  let st := match firstIntruder entity guard_position alert_range entities with
    | some other =>
        let st := { st0 with alertness := min 100 (st0.alertness + 40 * dt) }
        { st with memory := { st.memory with
            goal_data := assocSet st.memory.goal_data "target_position"
              (.pair other.position.1 other.position.2) } }
    | none =>
        let target := if distance_from_post > guard_radius then guard_position
          else entity.position
        let st := { st0 with memory := { st0.memory with
            goal_data := assocSet st0.memory.goal_data "target_position"
              (.pair target.1 target.2) } }
        { st with alertness := max 0 (st.alertness - 5 * dt) }
  { state := { st with energy := max 0 (st.energy - energy_cost * dt) } }

/-- Model of `TradeBehavior._execute` (lines 297-348).  Source defaults:
`arrival_tolerance` 15.0, `wait_time` 2.0, `energy_cost` 1.5,
`trade_routes` `[]`.  Stored route/point indices are read from goal-data:
non-numeric values raise `TypeError` at the `>=` comparisons, non-int
numeric values raise `TypeError` at list indexing, out-of-range ints (after
Python's negative-index rule) raise `IndexError`. -/
def tradeExecute (trade_routes : List (List (ℚ × ℚ)))
    (arrival_tolerance wait_time energy_cost : ℚ)
    (entity : Entity) (st0 : AIState) (dt : ℚ) : AIExec :=
  if trade_routes.isEmpty then { state := st0 }
  else
    let crv := (assocGet st0.memory.goal_data "current_route").getD (.int 0)
    let cpv := (assocGet st0.memory.goal_data "current_point").getD (.int 0)
    match crv.toNum with
    | none => { state := st0, error := some "TypeError" }
    | some crn =>
      let crFixed : PyVal := if crn ≥ (trade_routes.length : ℚ) then .int 0 else crv
      match crFixed.toIndex with
      | none => { state := st0, error := some "TypeError" }
      | some current_route =>
        match pyListGet trade_routes current_route with
        | none => { state := st0, error := some "IndexError" }
        | some route =>
          match cpv.toNum with
          | none => { state := st0, error := some "TypeError" }
          | some cpn =>
            if cpn ≥ (route.length : ℚ) then
              let nr := (current_route + 1) % (trade_routes.length : ℤ)
              let gd := assocSet
                (assocSet st0.memory.goal_data "current_route" (.int nr))
                "current_point" (.int 0)
              { state := { st0 with memory := { st0.memory with goal_data := gd } } }
            else
              match cpv.toIndex with
              | none => { state := st0, error := some "TypeError" }
              | some cp =>
                match pyListGet route cp with
                | none => { state := st0, error := some "IndexError" }
                | some target_pos =>
                  let distance := distQ entity.position target_pos
                  let gdArr := assocSet
                    (assocSet st0.memory.goal_data "current_point" (.int (cp + 1)))
                    "wait_until" (.num (st0.state_time + wait_time))
                  let st := if distance < arrival_tolerance then
                      { st0 with memory := { st0.memory with goal_data := gdArr } }
                    else st0
                  match ((assocGet st.memory.goal_data "wait_until").getD
                      (.num 0)).toNum with
                  | none => { state := st, error := some "TypeError" }
                  | some wait_until =>
                    let target := if st.state_time < wait_until then entity.position
                      else target_pos
                    let gdT := assocSet st.memory.goal_data "target_position"
                      (.pair target.1 target.2)
                    let st := { st with memory := { st.memory with goal_data := gdT } }
                    { state := { st with
                        energy := max 0 (st.energy - energy_cost * dt) } }

/-! ## Behavior objects, arbitration and the decision system -/

/-- The six built-in decision behavior kinds with their configuration
parameters (the `behavior_classes` table, ai_system.py lines 359-366; each
parameter is read from the JSON config with the default recorded on the
corresponding execute function above). -/
inductive AIBehaviorKind where
  | idle (energy_recovery_rate : ℚ)
  | patrol (waypoints : List (ℚ × ℚ)) (arrival_tolerance : ℚ) (energy_cost : ℚ)
  | hunt (detection_range : ℚ) (target_types : List String)
      (memory_duration : ℚ) (energy_cost : ℚ)
  | flee (detection_range : ℚ) (threat_types : List String)
      (flee_range : ℚ) (energy_cost : ℚ)
  | guard (guard_position : ℚ × ℚ) (guard_radius : ℚ) (alert_range : ℚ)
      (energy_cost : ℚ)
  | trade (trade_routes : List (List (ℚ × ℚ))) (arrival_tolerance : ℚ)
      (wait_time : ℚ) (energy_cost : ℚ)
  deriving Repr, DecidableEq

/-- A decision behavior object (`AIBehavior.__init__`, lines 39-43):
`name` default 'unknown', `enabled` default `True`, `priority` default 0,
plus the kind-specific configuration. -/
structure AIBehavior where
  name : String := "unknown"
  enabled : Bool := true
  priority : ℚ := 0
  kind : AIBehaviorKind
  deriving Repr, DecidableEq

/-- The `_can_execute` eligibility predicates (lines 58-60, 82-83, 118-119,
181-183, 241-242, 294-295).  All six read only the decision runtime state
(none inspects the entity or the entity list). -/
def canExecuteKind : AIBehaviorKind → AIState → Bool
  | .idle _, _ => true
  | .patrol _ _ _, st => st.energy > 20
  | .hunt _ _ _ _, st => st.energy > 30
  | .flee _ _ _ _, st => st.energy < 30 ∨ st.alertness > 70
  | .guard _ _ _ _, st => st.energy > 40
  | .trade _ _ _ _, st => st.energy > 25

/-- Model of `AIBehavior.can_execute` (lines 45-49): disabled behaviors are never
eligible; otherwise the kind's `_can_execute` decides. -/
def AIBehavior.can_execute (b : AIBehavior) (st : AIState) : Bool :=
  b.enabled && canExecuteKind b.kind st

/-- Dispatch to the kind's `_execute`. -/
def executeKind (kind : AIBehaviorKind) (entity : Entity) (st : AIState)
    (entities : List Entity) (dt : ℚ) : AIExec :=
  match kind with
  | .idle r => idleExecute r st dt
  | .patrol w tol c => patrolExecute w tol c entity st dt
  | .hunt dr tt md c => huntExecute dr tt md c entity st entities dt
  | .flee dr tt fr c => fleeExecute dr tt fr c entity st entities dt
  | .guard gp gr ar c => guardExecute gp gr ar c entity st entities dt
  | .trade tr tol wt c => tradeExecute tr tol wt c entity st dt

/-- Model of `AIBehavior.execute` (lines 51-56): returns immediately when disabled,
otherwise advances `state_time` by `dt` and runs the kind's `_execute`. -/
def AIBehavior.execute (b : AIBehavior) (entity : Entity) (st : AIState)
    (entities : List Entity) (dt : ℚ) : AIExec :=
  if b.enabled = false then { state := st }
  else executeKind b.kind entity { st with state_time := st.state_time + dt } entities dt

/-- One iteration of the best-behavior selection loop in `AISystem.update`
(lines 481-485): a behavior replaces the current best exactly when it is
eligible and its priority strictly exceeds the best priority so far. -/
def selectStep (st : AIState) (acc : Option AIBehavior × ℚ) (b : AIBehavior) :
    Option AIBehavior × ℚ :=
  if b.can_execute st then
    (if b.priority > acc.2 then (some b, b.priority) else acc)
  else acc

/-- The arbitration of `AISystem.update` (lines 477-485): fold the selection
loop over the registered behaviors in registration order, starting from
`best_behavior = None`, `best_priority = -1`. -/
def selectBest (behaviors : List AIBehavior) (st : AIState) : Option AIBehavior :=
  (behaviors.foldl (selectStep st) (none, -1)).1

/-- Model of `AISystem._sync_with_ai_component` (lines 594-622).  When the entity has
a (truthy) 'ai' component: pull `current_goal` from the component into
decision memory, mirror the whole memory record and current goal back into
the component, then adjust alertness from the component's aggression level.
Returns the updated component and state ('none' component ⇒ both returned
unchanged, matching the falsy-check early exit). -/
def syncWithAiComponent (c? : Option AiComponent) (st : AIState) :
    Option AiComponent × AIState :=
  match c? with
  | none => (none, st)
  | some c =>
      let st := { st with memory := { st.memory with current_goal := c.current_goal } }
      let c := { c with
        memory := some
          { last_seen_targets := st.memory.last_seen_targets
            last_seen_times := st.memory.last_seen_times
            current_target := st.memory.current_target
            current_goal := st.memory.current_goal
            goal_data := st.memory.goal_data
            blackboard := st.memory.blackboard }
        current_goal := st.memory.current_goal }
      let st :=
        if c.aggression_level > 7/10 then
          { st with alertness := min 100 (st.alertness + 10) }
        else if c.aggression_level < 3/10 then
          { st with alertness := max 0 (st.alertness - 5) }
        else st
      (some c, st)

/-- Model of `AISystem._load_ai_from_component` (lines 624-665): build a fresh
decision runtime state from a persisted 'ai' component.  Memory is copied
from the component's memory record when that record is truthy; the memory's
current goal is then overwritten by the component's top-level
`current_goal`; behavior name, energy and alertness are set from `ai_type`. -/
def loadAiFromComponent (c? : Option AiComponent) : Option AIState :=
  match c? with
  | none => none
  | some c =>
      let mem : AIMemory := match c.memory with
        | some m =>
            { last_seen_targets := m.last_seen_targets
              last_seen_times := m.last_seen_times
              current_target := m.current_target
              current_goal := m.current_goal
              goal_data := m.goal_data
              blackboard := m.blackboard }
        | none => {}
      let mem := { mem with current_goal := c.current_goal }
      let st : AIState := { memory := mem }
      some (if c.ai_type = "aggressive" then
          { st with behavior_name := "pirate_hunt", energy := 80, alertness := 60 }
        else if c.ai_type = "defensive" then
          { st with behavior_name := "station_guard", energy := 90, alertness := 30 }
        else if c.ai_type = "merchant" then
          { st with behavior_name := "trade_run", energy := 70, alertness := 20 }
        else
          { st with behavior_name := "default_idle", energy := 100, alertness := 0 })

/-- Model of `AISystem` (lines 351-356): the registered behaviors (a dict keyed by
behavior name, modelled as the insertion-ordered list over which
`self.behaviors.values()` iterates) and the per-entity runtime state table. -/
structure AISystem where
  behaviors : List AIBehavior := []
  entity_ai_states : List (String × AIState) := []
  deriving Repr, DecidableEq

/-- Model of `AISystem.auto_assign_ai_from_components` (lines 667-683): for each
entity (all carry an `id` here), skip when a runtime state already exists,
otherwise create one from the 'ai' component when present. -/
def autoAssignAiFromComponents (states : List (String × AIState))
    (entities : List Entity) : List (String × AIState) :=
  entities.foldl (fun sts e =>
    if (assocGet sts e.id).isSome then sts
    else match loadAiFromComponent e.ai_component with
      | some st => sts ++ [(e.id, st)]
      | none => sts) states

/-- Result of processing one entity inside `AISystem.update`: the (possibly
component-mutated) entity, its runtime state after the tick, and the raise
carried out of a behavior effect, if any. -/
structure EntityTick where
  entity : Entity
  state : AIState
  error : Option String := none
  deriving Repr, DecidableEq

/-- The per-entity body of `AISystem.update` (lines 472-497): sync with the
'ai' component, arbitrate, on a selected behavior reset `state_time` when
the behavior name changes, execute it, and sync with the component again.
When no behavior is eligible, only the initial component sync has run. -/
def aiProcessEntity (behaviors : List AIBehavior) (entities : List Entity)
    (dt : ℚ) (e : Entity) (st : AIState) : EntityTick :=
  let (c1, st1) := syncWithAiComponent e.ai_component st
  let e1 := { e with ai_component := c1 }
  match selectBest behaviors st1 with
  | none => { entity := e1, state := st1 }
  | some b =>
      let st2 := if st1.behavior_name ≠ b.name then
          { st1 with behavior_name := b.name, state_time := 0 }
        else st1
      let ex := b.execute e1 st2 entities dt
      match ex.error with
      | some msg => { entity := e1, state := ex.state, error := some msg }
      | none =>
          let (c2, st4) := syncWithAiComponent e1.ai_component ex.state
          { entity := { e1 with ai_component := c2 }, state := st4 }

/-- Model of `AISystem.update` (lines 459-497): auto-assign runtime states from
components, then process each entity in order, threading the state table and
the (component-)mutated entity list.  A raise inside a behavior propagates
out of `update` (caught only at the game-loop boundary), modelled as an
`error` result; the AI update mutates only 'ai' components, which no
eligibility predicate or geometry scan reads from other entities, so scans
receive the entity list as of the start of the update. -/
def AISystem.update (sys : AISystem) (entities : List Entity) (dt : ℚ) :
    Except String (AISystem × List Entity) :=
  let states0 := autoAssignAiFromComponents sys.entity_ai_states entities
  let folded := entities.foldl
    (fun acc e =>
      match acc with
      | .error msg => .error msg
      | .ok (sts, done) =>
          match assocGet sts e.id with
          | none => .ok (sts, done ++ [e])
          | some st =>
              let r := aiProcessEntity sys.behaviors entities dt e st
              match r.error with
              | some msg => .error msg
              | none => .ok (assocSet sts e.id r.state, done ++ [r.entity]))
    (Except.ok ((states0 : List (String × AIState)), ([] : List Entity)))
  match folded with
  | .error msg => .error msg
  | .ok (sts, done) => .ok ({ sys with entity_ai_states := sts }, done)

/-! ## Movement subsystem (src/simple/movement_system.py) -/

/-- Model of `MovementData` dataclass (movement_system.py lines 15-25).
`target_position` holds whatever `set_target` stored (any Python value),
hence `Option PyVal`. -/
structure MovementData where
  velocity : ℚ × ℚ := (0, 0)
  acceleration : ℚ × ℚ := (0, 0)
  max_speed : ℚ := 100
  rotation : ℚ := 0
  angular_velocity : ℚ := 0
  target_position : Option PyVal := none
  path_points : List (ℚ × ℚ) := []
  current_path_index : ℤ := 0
  deriving Repr, DecidableEq

/-- The per-object mutable fields of `WanderMovement` (lines 163-166):
`next_direction_change` starts at 0.0 and `current_direction` at a random
angle drawn at construction time. -/
structure WanderState where
  next_direction_change : ℚ := 0
  current_direction : ℚ
  deriving Repr, DecidableEq

/-- The six built-in movement behavior kinds with their configuration
(the `behavior_classes` table, movement_system.py lines 247-254).  The
wander kind additionally carries the object's mutable `WanderState`. -/
inductive MovementKind where
  | linear (max_speed : ℚ)
  | circular (center : ℚ × ℚ) (radius : ℚ) (angular_speed : ℚ)
  | orbit (target_entity_id : Option String) (fallback_center : ℚ × ℚ)
      (radius : ℚ) (angular_speed : ℚ)
  | patrol (waypoints : List (ℚ × ℚ)) (speed : ℚ) (arrival_tolerance : ℚ)
  | wander (speed : ℚ) (direction_change_interval : ℚ)
      (max_direction_change : ℚ) (wstate : WanderState)
  | seek (target_position : Option PyVal) (speed : ℚ) (max_force : ℚ)
  deriving Repr, DecidableEq

/-- A movement behavior object (`MovementBehavior.__init__`, lines 31-34). -/
structure MovementBehavior where
  name : String := "unknown"
  enabled : Bool := true
  kind : MovementKind
  deriving Repr, DecidableEq

/-- Model of `LinearMovement._update_movement` (lines 50-73).  Source default
`max_speed` 50.0 (read from config, not from the kinematics record). -/
def linearUpdate (max_speed : ℚ) (entity : Entity) (dt : ℚ)
    (md : MovementData) : MovementData × Entity :=
  let vx := md.velocity.1 + md.acceleration.1 * dt
  let vy := md.velocity.2 + md.acceleration.2 * dt
  let speed := sqrtQ (vx * vx + vy * vy)
  let v : ℚ × ℚ := if speed > max_speed then
      (vx / speed * max_speed, vy / speed * max_speed)
    else (vx, vy)
  let md := { md with velocity := v }
  (md, { entity with position :=
      (entity.position.1 + v.1 * dt, entity.position.2 + v.2 * dt) })

/-- Model of `CircularMovement._update_movement` (lines 79-91).  Source defaults:
`center` (0,0), `radius` 100.0, `angular_speed` 1.0. -/
def circularUpdate (center : ℚ × ℚ) (radius angular_speed : ℚ) (entity : Entity)
    (dt : ℚ) (md : MovementData) : MovementData × Entity :=
  let md := { md with rotation := md.rotation + angular_speed * dt }
  (md, { entity with position :=
      (center.1 + radius * cosQ md.rotation, center.2 + radius * sinQ md.rotation) })

/-- Model of `OrbitMovement._update_movement` (lines 97-115): returns early when the
configured target id is falsy (absent, `None`, or an empty string);
otherwise orbits the configured fallback center.  Source defaults:
`fallback_center` (0,0), `radius` 100.0, `angular_speed` 0.5. -/
def orbitUpdate (target_entity_id : Option String) (fallback_center : ℚ × ℚ)
    (radius angular_speed : ℚ) (entity : Entity) (dt : ℚ)
    (md : MovementData) : MovementData × Entity :=
  match target_entity_id with
  | none => (md, entity)
  | some tid =>
      if tid = "" then (md, entity)
      else
        let md := { md with rotation := md.rotation + angular_speed * dt }
        (md, { entity with position :=
            (fallback_center.1 + radius * cosQ md.rotation,
             fallback_center.2 + radius * sinQ md.rotation) })

/-- Model of `PatrolMovement._update_movement` (lines 121-157).  Source defaults:
`waypoints` `[]`, `speed` 30.0, `arrival_tolerance` 5.0.  A stored
`current_path_index` outside Python's index range raises `IndexError`. -/
def patrolMoveUpdate (waypoints : List (ℚ × ℚ)) (speed arrival_tolerance : ℚ)
    (entity : Entity) (dt : ℚ) (md : MovementData) :
    MovementData × Entity × Option String :=
  if waypoints.isEmpty then (md, entity, none)
  else
    let md := if md.path_points.isEmpty then
        { md with path_points := waypoints, current_path_index := 0 }
      else md
    if md.path_points.isEmpty then (md, entity, none)
    else
      match pyListGet md.path_points md.current_path_index with
      | none => (md, entity, some "IndexError")
      | some target =>
          let distance := distQ entity.position target
          if distance < arrival_tolerance then
            ({ md with current_path_index :=
                (md.current_path_index + 1) % (md.path_points.length : ℤ) },
             entity, none)
          else if distance > 0 then
            let mx := (target.1 - entity.position.1) / distance * speed * dt
            let my := (target.2 - entity.position.2) / distance * speed * dt
            (md, { entity with position :=
                (entity.position.1 + mx, entity.position.2 + my) }, none)
          else (md, entity, none)

/-- Model of `WanderMovement._update_movement` (lines 168-187): decrement the
object's direction-change timer by `dt`; when it reaches 0 draw a direction
change (`random.uniform(-max_direction_change, max_direction_change)`,
modelled as consuming the head of the supplied random stream) and reset the
timer to `direction_change_interval`; then move along the stored direction.
Source defaults: `speed` 20.0, `direction_change_interval` 2.0,
`max_direction_change` π/4 (the bound parameterizes the draw only). -/
def wanderUpdate (speed direction_change_interval : ℚ)
    (w : WanderState) (entity : Entity) (dt : ℚ) (rands : List ℚ) :
    WanderState × Entity × List ℚ :=
  let w := { w with next_direction_change := w.next_direction_change - dt }
  let wr : WanderState × List ℚ :=
    if w.next_direction_change ≤ 0 then
      ({ next_direction_change := direction_change_interval
         current_direction := w.current_direction + rands.headD 0 }, rands.drop 1)
    else (w, rands)
  let mx := cosQ wr.1.current_direction * speed * dt
  let my := sinQ wr.1.current_direction * speed * dt
  (wr.1, { entity with position :=
      (entity.position.1 + mx, entity.position.2 + my) }, wr.2)

/-- Model of `SeekMovement._update_movement` (lines 193-235).  The target is the
config's `target_position` when truthy, else the kinematics record's;
a falsy target returns early; a non-pair target raises `TypeError` at the
`target_x, target_y = target` unpacking.  Source defaults: `speed` 40.0,
`max_force` 100.0. -/
def seekUpdate (cfg_target : Option PyVal) (speed max_force : ℚ)
    (entity : Entity) (dt : ℚ) (md : MovementData) :
    MovementData × Entity × Option String :=
  let target? : Option PyVal := match cfg_target with
    | some t => if t.truthy then some t else md.target_position
    | none => md.target_position
  match target? with
  | none => (md, entity, none)
  | some t =>
      if t.truthy = false then (md, entity, none)
      else match t with
        | .pair tx ty =>
            let x := entity.position.1
            let y := entity.position.2
            let dx := tx - x
            let dy := ty - y
            let distance := sqrtQ (dx * dx + dy * dy)
            if distance > 0 then
              let dvx := dx / distance * speed
              let dvy := dy / distance * speed
              let sx0 := dvx - md.velocity.1
              let sy0 := dvy - md.velocity.2
              let sf := sqrtQ (sx0 * sx0 + sy0 * sy0)
              let s : ℚ × ℚ := if sf > max_force then
                  (sx0 / sf * max_force, sy0 / sf * max_force)
                else (sx0, sy0)
              let vx := md.velocity.1 + s.1 * dt
              let vy := md.velocity.2 + s.2 * dt
              let md := { md with acceleration := s, velocity := (vx, vy) }
              (md, { entity with position := (x + vx * dt, y + vy * dt) }, none)
            else (md, entity, none)
        | _ => (md, entity, some "TypeError")

/-- Result of one movement behavior update: the behavior object (mutated
only by the wander kind), the kinematics record, the entity, the remaining
random stream, and a raise if any. -/
structure MoveExec where
  behavior : MovementBehavior
  data : MovementData
  entity : Entity
  rands : List ℚ
  error : Option String := none
  deriving Repr, DecidableEq

/-- Model of `MovementBehavior.update` (lines 36-40) with the kind dispatch: returns
immediately when disabled, otherwise runs the kind's `_update_movement`.
Only the wander kind writes to the behavior object itself. -/
def MovementBehavior.update (b : MovementBehavior) (entity : Entity) (dt : ℚ)
    (md : MovementData) (rands : List ℚ) : MoveExec :=
  if b.enabled = false then
    { behavior := b, data := md, entity := entity, rands := rands }
  else match b.kind with
  | .linear ms =>
      let r := linearUpdate ms entity dt md
      { behavior := b, data := r.1, entity := r.2, rands := rands }
  | .circular c rad w =>
      let r := circularUpdate c rad w entity dt md
      { behavior := b, data := r.1, entity := r.2, rands := rands }
  | .orbit tid fc rad w =>
      let r := orbitUpdate tid fc rad w entity dt md
      { behavior := b, data := r.1, entity := r.2, rands := rands }
  | .patrol wp s tol =>
      let r := patrolMoveUpdate wp s tol entity dt md
      { behavior := b, data := r.1, entity := r.2.1, rands := rands,
        error := r.2.2 }
  | .wander s iv mc w =>
      let r := wanderUpdate s iv w entity dt rands
      { behavior := { b with kind := .wander s iv mc r.1 }, data := md,
        entity := r.2.1, rands := r.2.2 }
  | .seek t s f =>
      let r := seekUpdate t s f entity dt md
      { behavior := b, data := r.1, entity := r.2.1, rands := rands,
        error := r.2.2 }

/-- Model of `MovementSystem` (lines 238-244): behavior registry (name-keyed dict in
insertion order), per-entity kinematics records, per-entity behavior-name
assignments. -/
structure MovementSystem where
  behaviors : List (String × MovementBehavior) := []
  entity_movements : List (String × MovementData) := []
  entity_behaviors : List (String × String) := []
  deriving Repr, DecidableEq

/-- Model of `MovementSystem.set_target` (lines 307-310): store the target on the
entity's kinematics record when one exists, otherwise do nothing. -/
def MovementSystem.set_target (ms : MovementSystem) (entity_id : String)
    (target : PyVal) : MovementSystem :=
  match assocGet ms.entity_movements entity_id with
  | some md =>
      let md := { md with target_position := some target }
      { ms with entity_movements := assocSet ms.entity_movements entity_id md }
  | none => ms

/-- Model of `MovementSystem.update` (lines 292-305): for each entity with an
assignment naming a registered behavior and a kinematics record, run the
behavior's update; a raise propagates out of the update (it is caught only
at the game-loop boundary).  Missing assignment, unknown behavior name, or
missing record are all no-ops for that entity. -/
def MovementSystem.update (ms : MovementSystem) (entities : List Entity)
    (dt : ℚ) (rands : List ℚ) :
    Except String (MovementSystem × List Entity × List ℚ) :=
  entities.foldl
    (fun acc e =>
      match acc with
      | .error msg => .error msg
      | .ok (m, done, rs) =>
          match assocGet m.entity_behaviors e.id with
          | none => .ok (m, done ++ [e], rs)
          | some bname =>
              match assocGet m.behaviors bname with
              | none => .ok (m, done ++ [e], rs)
              | some b =>
                  match assocGet m.entity_movements e.id with
                  | none => .ok (m, done ++ [e], rs)
                  | some md =>
                      let r := b.update e dt md rs
                      match r.error with
                      | some msg => .error msg
                      | none => .ok
                          ({ m with
                              behaviors := assocSet m.behaviors bname r.behavior
                              entity_movements :=
                                assocSet m.entity_movements e.id r.data },
                           done ++ [r.entity], r.rands))
    (Except.ok (ms, ([] : List Entity), rands))

/-! ## Game manager tick (src/simple/game_manager.py) -/

/-- The manager-owned simulation state threaded through one logic tick:
the entity list and the two subsystems (`GameManager.__init__`). -/
structure ManagerState where
  entities : List Entity
  ai : AISystem
  movement : MovementSystem
  deriving Repr, DecidableEq

/-- Model of `GameManager._sync_ai_with_movement` (lines 190-201): for every entity
whose decision state's goal-data contains a `target_position`, copy that
value onto the entity's movement kinematics target field. -/
def syncAiWithMovement (entities : List Entity) (ai : AISystem)
    (mv : MovementSystem) : MovementSystem :=
  entities.foldl
    (fun m e =>
      match assocGet ai.entity_ai_states e.id with
      | none => m
      | some st =>
          match assocGet st.memory.goal_data "target_position" with
          | none => m
          | some tp => m.set_target e.id tp)
    mv

/-- Model of `GameManager._update_game_logic` (lines 176-188), the single update
callback registered with the game loop: decision update, then movement
update, then the decision→movement synchronization step — in that source
order.  A raise inside either subsystem aborts the rest of the callback
(it is caught at the game-loop boundary, game_loop.py lines 202-207). -/
def updateGameLogic (ms : ManagerState) (dt : ℚ) (rands : List ℚ) :
    Except String ManagerState :=
  if ms.entities.isEmpty then .ok ms
  else
    match AISystem.update ms.ai ms.entities dt with
    | .error msg => .error msg
    | .ok (ai1, ents1) =>
        match MovementSystem.update ms.movement ents1 dt rands with
        | .error msg => .error msg
        | .ok (mv1, ents2, _) =>
            .ok { entities := ents2, ai := ai1,
                  movement := syncAiWithMovement ents2 ai1 mv1 }

/-- Modelled from the spec: the tick ordering §4.5/§5 prescribe — "After
Decision update and before/alongside Movement update each tick ... copy [the
produced target position] into that entity's movement kinematics target
field"; i.e. decision update, then the synchronization step, then movement
update.  The source's `GameManager._update_game_logic` instead runs the
movement update before the synchronization step; this definition exists
solely to compare the two orders. -/
def updateGameLogicSpecOrdered (ms : ManagerState) (dt : ℚ) (rands : List ℚ) :
    Except String ManagerState :=
  if ms.entities.isEmpty then .ok ms
  else
    match AISystem.update ms.ai ms.entities dt with
    | .error msg => .error msg
    | .ok (ai1, ents1) =>
        let mv1 := syncAiWithMovement ents1 ai1 ms.movement
        match MovementSystem.update mv1 ents1 dt rands with
        | .error msg => .error msg
        | .ok (mv2, ents2, _) =>
            .ok { entities := ents2, ai := ai1, movement := mv2 }

/-! ## Derived definitions used by the verification statements -/

/-- Concrete running-and-paused scheduler used to witness the `step()`
theorem. -/
def glRunningPaused : GameLoop :=
  { state := { is_running := true, is_paused := true }, tick_interval := 1/20 }

/-- Energy and alertness lie in [0, 100]. -/
def EnergyAlertInv (st : AIState) : Prop :=
  0 ≤ st.energy ∧ st.energy ≤ 100 ∧ 0 ≤ st.alertness ∧ st.alertness ≤ 100

/-- The behavior's configured energy rate parameter is nonnegative
(`energy_recovery_rate` for idle, `energy_cost` for the rest); the alertness
rates are hard-coded nonnegative constants in the source. -/
def kindRatesNonneg : AIBehaviorKind → Prop
  | .idle r => 0 ≤ r
  | .patrol _ _ c => 0 ≤ c
  | .hunt _ _ _ c => 0 ≤ c
  | .flee _ _ _ c => 0 ≤ c
  | .guard _ _ _ c => 0 ≤ c
  | .trade _ _ _ c => 0 ≤ c

/-- A sequence of per-entity decision ticks: each element supplies the
registered behaviors, the entity list, the delta-time and the entity for one
run of the per-entity update body `aiProcessEntity`. -/
def runAiTicks (steps : List (List AIBehavior × List Entity × ℚ × Entity))
    (st : AIState) : AIState :=
  steps.foldl (fun s i => (aiProcessEntity i.1 i.2.1 i.2.2.1 i.2.2.2 s).state) st

/-- Concrete one-tick sequence (the shipped `default_idle` configuration)
used to witness the bounded energy/alertness theorem. -/
def aiTickW : List (List AIBehavior × List Entity × ℚ × Entity) :=
  [([{ name := "default_idle", priority := 0, kind := .idle 15 }], [],
    1/20, { id := "e1", type := "ship", position := (0, 0) })]

/-- Entity carrying an 'ai' component with high aggression, used to show the
component sync mutates state even on a tick with no eligible behavior. -/
def eAggr : Entity :=
  { id := "e1", type := "ship", position := (0, 0),
    ai_component := some { ai_type := "aggressive", aggression_level := 9/10 } }

/-- Whether a movement kind is the wander kind — the only kind whose
behavior object carries mutable instance fields. -/
def MovementKind.isWander : MovementKind → Bool
  | .wander _ _ _ _ => true
  | _ => false

/-- The component → runtime-state → component round trip of the
serialization claim: reconstruct a decision runtime state from a persisted
'ai' component (`_load_ai_from_component`), then mirror that state back into
the same component (`_sync_with_ai_component`) and take the resulting
component record. -/
def componentRoundTrip (c : AiComponent) : Option AiComponent :=
  match loadAiFromComponent (some c) with
  | none => none
  | some st => (syncWithAiComponent (some c) st).1

/-- Concrete consistent 'ai' component used to witness the round-trip
identity. -/
def cConsistent : AiComponent :=
  { memory := some { current_goal := some "g" }, current_goal := some "g",
    ai_type := "merchant" }

/-- A well-formed 'ai' component whose memory's current goal ("a") differs
from the top-level current goal ("b"). -/
def cInconsistent : AiComponent :=
  { memory := some { current_goal := some "a" }, current_goal := some "b" }

/-- Entity with a merchant 'ai' component and no runtime state, used to
witness auto-assignment. -/
def eMerchant : Entity :=
  { id := "m1", type := "cargo_ship", position := (0, 0),
    ai_component := some { ai_type := "merchant" } }

/-- One-entity scene exercising decision → movement target propagation: the
entity "e1" (no 'ai' component) has a patrol decision behavior (priority 10,
single waypoint `w`, arrival tolerance `tol`, energy cost `c`) and a seek
movement behavior (no configured target, speed `s`, max force `f`) with a
fresh kinematics record (target unset). -/
def sceneC2 (p w : ℚ × ℚ) (tol c s f : ℚ) : ManagerState :=
  { entities := [{ id := "e1", type := "ship", position := p }]
    ai := { behaviors := [{ name := "pat", priority := 10,
                            kind := .patrol [w] tol c }]
            entity_ai_states := [("e1", { behavior_name := "pat" })] }
    movement :=
      { behaviors := [("seekb", { name := "seekb", kind := .seek none s f })]
        entity_movements := [("e1", {})]
        entity_behaviors := [("e1", "seekb")] } }

/-- The decision state `sceneC2`'s entity reaches after one decision tick:
patrol wrote waypoint `w` into goal-data's target position (advancing the
waypoint index first when already within tolerance). -/
def stAfterC2 (p w : ℚ × ℚ) (tol c dt : ℚ) : AIState :=
  let gd : List (String × PyVal) :=
    if distQ p w < tol then
      [("current_waypoint", PyVal.int 0), ("target_position", PyVal.pair w.1 w.2)]
    else [("target_position", PyVal.pair w.1 w.2)]
  { behavior_name := "pat", state_time := 0 + dt,
    energy := max 0 (100 - c * dt), alertness := 0,
    memory := { current_target := none, goal_data := gd } }

/-! ## Theorems about the scheduler -/

/-- C7: whenever the scheduler is running (and in particular also paused),
`step()` advances the tick counter by exactly 1 and leaves the paused flag
untouched; pausing mid-run and stepping three times advances the tick by
exactly 3 and leaves the scheduler paused. -/
theorem step_while_paused_advances_one_tick (gl : GameLoop)
    (hrun : gl.state.is_running = true) :
    (gl.state.is_paused = true →
      (gl.step.1.state.tick = gl.state.tick + 1 ∧
       gl.step.1.state.is_paused = true)) ∧
    (gl.pause.step.1.step.1.step.1.state.tick = gl.state.tick + 3 ∧
     gl.pause.step.1.step.1.step.1.state.is_paused = true) := by
  refine ⟨fun hp => ?_, ?_, ?_⟩ <;>
    simp [GameLoop.step, GameLoop.pause, hrun, *]

theorem step_while_paused_advances_one_tick_witness :
    glRunningPaused.state.is_running = true ∧
    (glRunningPaused.step.1.state.tick = glRunningPaused.state.tick + 1 ∧
     glRunningPaused.step.1.state.is_paused = true) :=
  ⟨rfl, (step_while_paused_advances_one_tick glRunningPaused rfl).1 rfl⟩

/-- C1 counterexample: starting the scheduler (target 20 ticks per second,
so nominal tick interval 1/20) and setting the speed multiplier to 2 —
inside the legal range [0.1, 10] — makes `step()` pass delta-time 1/10 to
the update callbacks, not the nominal 1/20: the delta-time of an advance is
not independent of the speed multiplier. -/
theorem dt_not_nominal_under_speed :
    (1/10 : ℚ) ≤ 2 ∧ (2 : ℚ) ≤ 10 ∧
    (((GameLoop.create 20 60).start.set_speed 2).step).2 = some (1/10) ∧
    (1/10 : ℚ) ≠ 1/20 := by
  refine ⟨by norm_num, by norm_num, ?_, by norm_num⟩
  norm_num [GameLoop.create, GameLoop.start, GameLoop.set_speed, GameLoop.step]

/-- C1 (amended): every logic advance — whether produced by the running
logic cadence or by `step()` — passes delta-time
`tick_interval * speed_multiplier` to the update callbacks and adds that
same delta-time to simulation time; so the delta-time equals the nominal
tick interval only when the multiplier is 1, and the multiplier scales both
the cadence (the loop advances when the elapsed wall time reaches
`tick_interval / speed_multiplier`) and the size of each advance. -/
theorem advance_dt_equals_interval_times_speed (gl : GameLoop)
    (hrun : gl.state.is_running = true) :
    (gl.step.2 = some (gl.tick_interval * gl.state.speed_multiplier) ∧
     gl.step.1.state.game_time =
       gl.state.game_time + gl.tick_interval * gl.state.speed_multiplier) ∧
    (∀ elapsed rnow : ℚ, gl.state.is_paused = false →
      elapsed ≥ gl.tick_interval / gl.state.speed_multiplier →
      ((gl.loopAdvance elapsed rnow).2 =
         some (gl.tick_interval * gl.state.speed_multiplier) ∧
       (gl.loopAdvance elapsed rnow).1.state.game_time =
         gl.state.game_time + gl.tick_interval * gl.state.speed_multiplier)) := by
  constructor
  · simp [GameLoop.step, hrun]
  · intro elapsed rnow hp helapsed
    simp [GameLoop.loopAdvance, hrun, hp, helapsed]

theorem advance_dt_equals_interval_times_speed_witness :
    glRunningPaused.state.is_running = true ∧
    (glRunningPaused.step.2 =
      some (glRunningPaused.tick_interval * glRunningPaused.state.speed_multiplier) ∧
     glRunningPaused.step.1.state.game_time =
      glRunningPaused.state.game_time +
        glRunningPaused.tick_interval * glRunningPaused.state.speed_multiplier) :=
  ⟨rfl, (advance_dt_equals_interval_times_speed glRunningPaused rfl).1⟩

/-! ## Theorems about decision arbitration -/

/-- Folding the selection loop over behaviors none of which strictly beats
the accumulator's best priority leaves the accumulator unchanged. -/
theorem selectFold_no_improvement (st : AIState) (l : List AIBehavior)
    (acc : Option AIBehavior × ℚ)
    (h : ∀ b ∈ l, b.can_execute st = true → b.priority ≤ acc.2) :
    l.foldl (selectStep st) acc = acc := by
  induction l generalizing acc with
  | nil => rfl
  | cons b l ih =>
      have hstep : selectStep st acc b = acc := by
        unfold selectStep
        split
        · next helig =>
            exact if_neg (not_lt.mpr (h b (List.mem_cons_self b l) helig))
        · rfl
      rw [List.foldl_cons, hstep]
      exact ih acc (fun b' hb' he => h b' (List.mem_cons_of_mem _ hb') he)

/-- Folding the selection loop cannot raise the best priority to `c` when
every eligible behavior's priority is below `c`. -/
theorem selectFold_snd_lt (st : AIState) (l : List AIBehavior) (c : ℚ) :
    ∀ acc : Option AIBehavior × ℚ, acc.2 < c →
    (∀ b ∈ l, b.can_execute st = true → b.priority < c) →
    (l.foldl (selectStep st) acc).2 < c := by
  induction l with
  | nil => intro acc hacc _; simpa using hacc
  | cons b l ih =>
      intro acc hacc h
      rw [List.foldl_cons]
      refine ih _ ?_ (fun b' hb' he => h b' (List.mem_cons_of_mem _ hb') he)
      unfold selectStep
      split
      case isTrue helig =>
        split
        case isTrue => simpa using h b (List.mem_cons_self b l) helig
        case isFalse => exact hacc
      case isFalse => exact hacc

/-- C3 (amended): provided the highest priority among the eligible behaviors
exceeds the arbitration loop's initial best priority of -1 (in particular,
for any nonnegative priorities), the first-registered behavior attaining
that highest priority is selected, for every registration order: every
eligible behavior registered before it has strictly lower priority and every
eligible behavior registered after it has lower-or-equal priority.  When
every eligible behavior has priority ≤ -1, no behavior is selected at all
(the step `aiProcessEntity` then executes nothing — see its definition,
which runs exactly the behavior returned by `selectBest`). -/
theorem first_highest_priority_selected (st : AIState)
    (l₁ l₂ : List AIBehavior) (b : AIBehavior)
    (helig : b.can_execute st = true)
    (hpos : b.priority > -1)
    (h₁ : ∀ b' ∈ l₁, b'.can_execute st = true → b'.priority < b.priority)
    (h₂ : ∀ b' ∈ l₂, b'.can_execute st = true → b'.priority ≤ b.priority) :
    selectBest (l₁ ++ b :: l₂) st = some b ∧
    (∀ l : List AIBehavior,
      (∀ b' ∈ l, b'.can_execute st = true → b'.priority ≤ -1) →
      selectBest l st = none) := by
  constructor
  · unfold selectBest
    rw [List.foldl_append, List.foldl_cons]
    have hlt : ((l₁.foldl (selectStep st) (none, -1)).2) < b.priority :=
      selectFold_snd_lt st l₁ b.priority (none, -1) (by simpa using hpos) h₁
    have hstep : ∀ acc : Option AIBehavior × ℚ, acc.2 < b.priority →
        selectStep st acc b = (some b, b.priority) := by
      intro acc hacc
      unfold selectStep
      rw [if_pos helig, if_pos (show b.priority > acc.2 from hacc)]
    rw [hstep _ hlt, selectFold_no_improvement st l₂ (some b, b.priority)
      (fun b' hb' he => h₂ b' hb' he)]
  · intro l h
    unfold selectBest
    rw [selectFold_no_improvement st l (none, -1) (fun b' hb' he => h b' hb' he)]

theorem first_highest_priority_selected_witness :
    (({ name := "hi", priority := 10, kind := .idle 10 } : AIBehavior).can_execute {} = true ∧
     (10 : ℚ) > -1) ∧
    selectBest [{ name := "lo", priority := 5, kind := .idle 10 },
                { name := "hi", priority := 10, kind := .idle 10 }] {} =
      some { name := "hi", priority := 10, kind := .idle 10 } := by
  refine ⟨⟨rfl, by norm_num⟩, ?_⟩
  have h := first_highest_priority_selected {}
    [{ name := "lo", priority := 5, kind := .idle 10 }] []
    { name := "hi", priority := 10, kind := .idle 10 }
    rfl (by norm_num)
    (by intro b' hb' _
        simp only [List.mem_singleton] at hb'
        subst hb'
        norm_num)
    (by intro b' hb'
        simp at hb')
  simpa using h.1

/-- C3 counterexample: two enabled decision behaviors, both eligible (idle
behaviors are always eligible), with declared priorities -2 and -5.  The
claim requires the priority -2 behavior to be selected, but the arbitration
loop starts from best priority -1 and requires a strict improvement, so no
behavior is selected at all. -/
theorem no_selection_when_priorities_below_initial :
    ({ name := "a", priority := -2, kind := .idle 10 } : AIBehavior).can_execute {} = true ∧
    ({ name := "b", priority := -5, kind := .idle 10 } : AIBehavior).can_execute {} = true ∧
    selectBest [{ name := "a", priority := -2, kind := .idle 10 },
                { name := "b", priority := -5, kind := .idle 10 }] {} = none := by
  refine ⟨rfl, rfl, ?_⟩
  have := selectFold_no_improvement {}
    [{ name := "a", priority := -2, kind := .idle 10 },
     { name := "b", priority := -5, kind := .idle 10 }] (none, -1)
    (by intro b' hb' _
        simp only [List.mem_cons, List.mem_singleton] at hb'
        rcases hb' with h | h | h <;> first
          | (subst h; norm_num)
          | simp at h)
  unfold selectBest
  rw [this]

/-! ## Theorems about the energy/alertness range invariant -/

set_option maxHeartbeats 2000000 in
/-- Every `_execute` keeps energy and alertness in [0, 100] (also at a raise
point, where the partially mutated state survives), given a nonnegative
delta-time and a nonnegative configured energy rate. -/
theorem executeKind_preserves_inv (kind : AIBehaviorKind) (entity : Entity)
    (st : AIState) (entities : List Entity) (dt : ℚ)
    (hdt : 0 ≤ dt) (hk : kindRatesNonneg kind) (hinv : EnergyAlertInv st) :
    EnergyAlertInv (executeKind kind entity st entities dt).state := by
  obtain ⟨he0, he1, ha0, ha1⟩ := hinv
  cases kind with
  | idle r =>
      have hrd : 0 ≤ r * dt := mul_nonneg hk hdt
      have h110 : 0 ≤ 1/10 * dt := by linarith
      simp only [executeKind, idleExecute, EnergyAlertInv]
      refine ⟨?_, ?_, ?_, ?_⟩ <;>
        first
        | exact le_max_left 0 _
        | exact min_le_left _ _
        | (apply max_le (by norm_num); linarith)
        | (apply le_min (by norm_num); linarith)
  | patrol w tol c =>
      have hcd : 0 ≤ c * dt := mul_nonneg hk hdt
      simp only [executeKind, patrolExecute]
      repeat' split
      all_goals
        dsimp only [EnergyAlertInv]
      all_goals
        refine ⟨?_, ?_, ?_, ?_⟩ <;>
          first
          | assumption
          | exact le_max_left 0 _
          | exact min_le_left _ _
          | (apply max_le (by norm_num); linarith)
          | (apply le_min (by norm_num); linarith)
  | hunt dr tt md c =>
      have hcd : 0 ≤ c * dt := mul_nonneg hk hdt
      have h50 : 0 ≤ 50 * dt := by linarith
      have h10 : 0 ≤ 10 * dt := by linarith
      simp only [executeKind, huntExecute]
      repeat' split
      all_goals
        dsimp only [EnergyAlertInv]
      all_goals
        refine ⟨?_, ?_, ?_, ?_⟩ <;>
          first
          | assumption
          | exact le_max_left 0 _
          | exact min_le_left _ _
          | (apply max_le (by norm_num); linarith)
          | (apply le_min (by norm_num); linarith)
  | flee dr tt fr c =>
      have hcd : 0 ≤ c * dt := mul_nonneg hk hdt
      have h30 : 0 ≤ 30 * dt := by linarith
      simp only [executeKind, fleeExecute]
      repeat' split
      all_goals
        dsimp only [EnergyAlertInv]
      all_goals
        refine ⟨?_, ?_, ?_, ?_⟩ <;>
          first
          | assumption
          | exact le_max_left 0 _
          | exact min_le_left _ _
          | (apply max_le (by norm_num); linarith)
          | (apply le_min (by norm_num); linarith)
  | guard gp gr ar c =>
      have hcd : 0 ≤ c * dt := mul_nonneg hk hdt
      have h40 : 0 ≤ 40 * dt := by linarith
      have h5 : 0 ≤ 5 * dt := by linarith
      simp only [executeKind, guardExecute]
      repeat' split
      all_goals
        dsimp only [EnergyAlertInv]
      all_goals
        refine ⟨?_, ?_, ?_, ?_⟩ <;>
          first
          | assumption
          | exact le_max_left 0 _
          | exact min_le_left _ _
          | (apply max_le (by norm_num); linarith)
          | (apply le_min (by norm_num); linarith)
  | trade tr tol wt c =>
      have hcd : 0 ≤ c * dt := mul_nonneg hk hdt
      simp only [executeKind, tradeExecute]
      repeat' split
      all_goals
        dsimp only [EnergyAlertInv]
      all_goals
        refine ⟨?_, ?_, ?_, ?_⟩ <;>
          first
          | assumption
          | exact le_max_left 0 _
          | exact min_le_left _ _
          | (apply max_le (by norm_num); linarith)
          | (apply le_min (by norm_num); linarith)

/-- The component sync keeps energy and alertness in [0, 100] (the
aggression feedback adjusts alertness only through clamped updates). -/
theorem sync_preserves_inv (c? : Option AiComponent) (st : AIState)
    (hinv : EnergyAlertInv st) : EnergyAlertInv (syncWithAiComponent c? st).2 := by
  obtain ⟨he0, he1, ha0, ha1⟩ := hinv
  unfold syncWithAiComponent
  cases c? with
  | none => exact ⟨he0, he1, ha0, ha1⟩
  | some c =>
      dsimp only
      split_ifs <;>
        refine ⟨?_, ?_, ?_, ?_⟩ <;>
          first
          | assumption
          | exact le_max_left 0 _
          | exact min_le_left _ _
          | (apply max_le (by norm_num); linarith)
          | (apply le_min (by norm_num); linarith)

/-- A behavior produced by the selection fold is the accumulator's or comes
from the list. -/
theorem selectFold_mem (st : AIState) (l : List AIBehavior) :
    ∀ (acc : Option AIBehavior × ℚ) (b : AIBehavior),
      (l.foldl (selectStep st) acc).1 = some b → acc.1 = some b ∨ b ∈ l := by
  induction l with
  | nil => intro acc b h; exact .inl h
  | cons x l ih =>
      intro acc b h
      rw [List.foldl_cons] at h
      rcases ih _ b h with h' | h'
      · unfold selectStep at h'
        split at h'
        · split at h'
          · simp only [Option.some.injEq] at h'
            exact .inr (h' ▸ List.mem_cons_self x l)
          · exact .inl h'
        · exact .inl h'
      · exact .inr (List.mem_cons_of_mem _ h')

/-- The arbitration only ever selects a registered behavior. -/
theorem selectBest_mem (behaviors : List AIBehavior) (st : AIState)
    (b : AIBehavior) (h : selectBest behaviors st = some b) : b ∈ behaviors := by
  rcases selectFold_mem st behaviors (none, -1) b h with h' | h'
  · simp at h'
  · exact h'

/-- Running `AIBehavior.execute` keeps energy and alertness in [0, 100] (the
wrapper only bumps `state_time` before dispatching). -/
theorem execute_preserves_inv (b : AIBehavior) (e : Entity) (st : AIState)
    (entities : List Entity) (dt : ℚ) (hdt : 0 ≤ dt)
    (hk : kindRatesNonneg b.kind) (hinv : EnergyAlertInv st) :
    EnergyAlertInv (b.execute e st entities dt).state := by
  unfold AIBehavior.execute
  split
  · exact hinv
  · exact executeKind_preserves_inv _ _ _ _ _ hdt hk hinv

/-- The whole per-entity decision tick (component sync, arbitration,
behavior-change reset, execution, second component sync) keeps energy and
alertness in [0, 100]. -/
theorem aiProcessEntity_preserves_inv (behaviors : List AIBehavior)
    (entities : List Entity) (dt : ℚ) (e : Entity) (st : AIState)
    (hdt : 0 ≤ dt) (hb : ∀ b ∈ behaviors, kindRatesNonneg b.kind)
    (hinv : EnergyAlertInv st) :
    EnergyAlertInv (aiProcessEntity behaviors entities dt e st).state := by
  have h1 : EnergyAlertInv (syncWithAiComponent e.ai_component st).2 :=
    sync_preserves_inv _ _ hinv
  unfold aiProcessEntity
  rcases hq : syncWithAiComponent e.ai_component st with ⟨c1, st1⟩
  rw [hq] at h1
  dsimp only at h1 ⊢
  cases hsel : selectBest behaviors st1 with
  | none => simpa using h1
  | some b =>
      have hkb : kindRatesNonneg b.kind := hb b (selectBest_mem behaviors st1 b hsel)
      have hst2 : EnergyAlertInv (if st1.behavior_name ≠ b.name then
          { st1 with behavior_name := b.name, state_time := 0 } else st1) := by
        split <;> exact h1
      dsimp only
      have hexec := execute_preserves_inv b { e with ai_component := c1 }
        (if st1.behavior_name ≠ b.name then
          { st1 with behavior_name := b.name, state_time := 0 } else st1)
        entities dt hdt hkb hst2
      cases herr : (AIBehavior.execute b { e with ai_component := c1 }
          (if st1.behavior_name ≠ b.name then
            { st1 with behavior_name := b.name, state_time := 0 } else st1)
          entities dt).error with
      | some msg => simpa using hexec
      | none =>
          have h2 := sync_preserves_inv c1
            ((AIBehavior.execute b { e with ai_component := c1 }
              (if st1.behavior_name ≠ b.name then
                { st1 with behavior_name := b.name, state_time := 0 } else st1)
              entities dt).state) hexec
          rcases hq2 : syncWithAiComponent c1
            ((AIBehavior.execute b { e with ai_component := c1 }
              (if st1.behavior_name ≠ b.name then
                { st1 with behavior_name := b.name, state_time := 0 } else st1)
              entities dt).state) with ⟨c2, st4⟩
          rw [hq2] at h2
          simp only [hq2]
          simpa using h2

/-- C4 (amended): for every decision runtime state with energy and alertness
starting in [0, 100] and every sequence of update ticks with nonnegative
delta-times, under behaviors whose configured energy rate parameters
(`energy_recovery_rate`, `energy_cost`) are nonnegative — as all shipped
configurations are — energy and alertness remain in [0, 100] after each
tick, including the alertness adjustments from the persisted component's
aggression level.  (With a negative rate the code's one-sided clamps let
energy leave the range, see the counterexample.) -/
theorem energy_alertness_bounded
    (steps : List (List AIBehavior × List Entity × ℚ × Entity)) (st : AIState)
    (hst : EnergyAlertInv st)
    (hsteps : ∀ i ∈ steps, 0 ≤ i.2.2.1 ∧ ∀ b ∈ i.1, kindRatesNonneg b.kind) :
    EnergyAlertInv (runAiTicks steps st) := by
  induction steps generalizing st with
  | nil => exact hst
  | cons i steps ih =>
      unfold runAiTicks at ih ⊢
      rw [List.foldl_cons]
      exact ih _
        (aiProcessEntity_preserves_inv _ _ _ _ _
          (hsteps i (List.mem_cons_self _ _)).1
          (hsteps i (List.mem_cons_self _ _)).2 hst)
        (fun j hj => hsteps j (List.mem_cons_of_mem _ hj))

theorem energy_alertness_bounded_witness :
    (EnergyAlertInv {} ∧
     (∀ i ∈ aiTickW, 0 ≤ i.2.2.1 ∧ ∀ b ∈ i.1, kindRatesNonneg b.kind)) ∧
    EnergyAlertInv (runAiTicks aiTickW {}) := by
  have h1 : EnergyAlertInv ({} : AIState) := by
    refine ⟨?_, ?_, ?_, ?_⟩ <;> norm_num
  have h2 : ∀ i ∈ aiTickW, 0 ≤ i.2.2.1 ∧ ∀ b ∈ i.1, kindRatesNonneg b.kind := by
    intro i hi
    simp only [aiTickW, List.mem_singleton] at hi
    subst hi
    refine ⟨by norm_num, ?_⟩
    intro b hb
    simp only [List.mem_singleton] at hb
    subst hb
    norm_num [kindRatesNonneg]
  exact ⟨⟨h1, h2⟩, energy_alertness_bounded aiTickW {} h1 h2⟩

/-- C4 counterexample: energy and alertness start in range (the default
state has energy 100, alertness 0), yet a single tick with one enabled idle
behavior whose configured `energy_recovery_rate` is -300 drives energy to
-200: the recovery update `min(100.0, energy + rate*dt)` clamps only from
above, so the claim fails as stated — it needs nonnegative rate
configurations. -/
theorem energy_escapes_range_with_negative_rate :
    EnergyAlertInv {} ∧
    (aiProcessEntity [{ name := "neg", priority := 0, kind := .idle (-300) }] []
        1 { id := "e1", type := "ship", position := (0, 0) } {}).state.energy
      = -200 ∧
    ¬(0 ≤ (aiProcessEntity
        [{ name := "neg", priority := 0, kind := .idle (-300) }] []
        1 { id := "e1", type := "ship", position := (0, 0) } {}).state.energy) := by
  have h : (aiProcessEntity
      [{ name := "neg", priority := 0, kind := .idle (-300) }] []
      1 { id := "e1", type := "ship", position := (0, 0) } {}).state.energy
        = -200 := by
    norm_num [aiProcessEntity, syncWithAiComponent, selectBest, selectStep,
      AIBehavior.can_execute, canExecuteKind, AIBehavior.execute, executeKind,
      idleExecute, min_def, max_def]
    simp only [if_neg (show ¬("idle" : String) = "neg" by decide)]
    norm_num
  exact ⟨⟨by norm_num, by norm_num, by norm_num, by norm_num⟩, h,
    by rw [h]; norm_num⟩

/-! ## Theorems about the no-eligible-behavior tick -/

/-- The component sync touches only memory's current goal and alertness:
behavior name, state_time, energy and all other memory fields survive. -/
theorem sync_preserves_non_goal_fields (c? : Option AiComponent) (st : AIState) :
    (syncWithAiComponent c? st).2.behavior_name = st.behavior_name ∧
    (syncWithAiComponent c? st).2.state_time = st.state_time ∧
    (syncWithAiComponent c? st).2.energy = st.energy ∧
    (syncWithAiComponent c? st).2.memory.goal_data = st.memory.goal_data ∧
    (syncWithAiComponent c? st).2.memory.last_seen_targets
      = st.memory.last_seen_targets ∧
    (syncWithAiComponent c? st).2.memory.last_seen_times
      = st.memory.last_seen_times ∧
    (syncWithAiComponent c? st).2.memory.current_target
      = st.memory.current_target ∧
    (syncWithAiComponent c? st).2.memory.blackboard = st.memory.blackboard := by
  cases c? with
  | none => exact ⟨rfl, rfl, rfl, rfl, rfl, rfl, rfl, rfl⟩
  | some c =>
      unfold syncWithAiComponent
      dsimp only
      split_ifs <;> exact ⟨rfl, rfl, rfl, rfl, rfl, rfl, rfl, rfl⟩

/-- Syncing an entity without a (truthy) 'ai' component is the identity. -/
theorem sync_none_id (st : AIState) : syncWithAiComponent none st = (none, st) :=
  rfl

/-- C5 (amended): when the decision update finds no behavior eligible for an
entity (eligibility judged, as in the source, against the state after the
pre-arbitration component sync), the tick performs only that component sync:
the resulting state is exactly the synced state, no raise occurs, and the
synced state keeps behavior name, state_time, energy, goal-data and every
memory field other than the current goal unchanged; for an entity without a
(truthy) 'ai' component, state and entity are entirely unchanged.  (The
component sync may still overwrite memory's current goal from the component
and adjust alertness by the aggression feedback — see the counterexample.) -/
theorem no_eligible_behavior_changes_only_sync (behaviors : List AIBehavior)
    (entities : List Entity) (dt : ℚ) (e : Entity) (st : AIState)
    (hnone : ∀ b ∈ behaviors,
      b.can_execute (syncWithAiComponent e.ai_component st).2 = false) :
    (aiProcessEntity behaviors entities dt e st).state
      = (syncWithAiComponent e.ai_component st).2 ∧
    (aiProcessEntity behaviors entities dt e st).error = none ∧
    ((syncWithAiComponent e.ai_component st).2.behavior_name = st.behavior_name ∧
     (syncWithAiComponent e.ai_component st).2.state_time = st.state_time ∧
     (syncWithAiComponent e.ai_component st).2.energy = st.energy ∧
     (syncWithAiComponent e.ai_component st).2.memory.goal_data
       = st.memory.goal_data) ∧
    (e.ai_component = none →
      (aiProcessEntity behaviors entities dt e st).state = st ∧
      (aiProcessEntity behaviors entities dt e st).entity = e) := by
  have hsel : selectBest behaviors (syncWithAiComponent e.ai_component st).2
      = none := by
    unfold selectBest
    have h := selectFold_no_improvement
      (syncWithAiComponent e.ai_component st).2 behaviors (none, -1)
      (fun b hb he => by rw [hnone b hb] at he; simp at he)
    rw [h]
  have hfields := sync_preserves_non_goal_fields e.ai_component st
  unfold aiProcessEntity
  rcases hq : syncWithAiComponent e.ai_component st with ⟨c1, st1⟩
  rw [hq] at hsel hfields
  dsimp only at hsel hfields ⊢
  rw [hsel]
  refine ⟨rfl, rfl, ⟨hfields.1, hfields.2.1, hfields.2.2.1, hfields.2.2.2.1⟩, ?_⟩
  intro hc
  rw [hc, sync_none_id] at hq
  injection hq with hq1 hq2
  subst hq1
  subst hq2
  cases e with
  | mk id ty pos comp =>
      dsimp only at hc
      subst hc
      exact ⟨rfl, rfl⟩

theorem no_eligible_behavior_changes_only_sync_witness :
    (∀ b ∈ ([] : List AIBehavior),
      b.can_execute (syncWithAiComponent
        ({ id := "e2", type := "ship", position := (0, 0) } : Entity).ai_component
        {}).2 = false) ∧
    (aiProcessEntity [] [] 1 { id := "e2", type := "ship", position := (0, 0) } {}).state
      = (syncWithAiComponent
          ({ id := "e2", type := "ship", position := (0, 0) } : Entity).ai_component {}).2 ∧
    (aiProcessEntity [] [] 1 { id := "e2", type := "ship", position := (0, 0) } {}).state
      = {} := by
  have h := no_eligible_behavior_changes_only_sync [] [] 1
    { id := "e2", type := "ship", position := (0, 0) } {} (by intro b hb; simp at hb)
  exact ⟨by intro b hb; simp at hb, h.1, (h.2.2.2 rfl).1⟩

/-- C5 counterexample: an entity with an 'ai' component whose aggression
level is 0.9, and no registered behaviors (so no behavior is eligible): the
tick still mutates the entity's decision state — alertness goes from 0 to 10
through the pre-arbitration component sync's aggression feedback. -/
theorem sync_mutates_state_without_eligible_behavior :
    ({} : AIState).alertness = 0 ∧
    (aiProcessEntity [] [] 1 eAggr {}).state.alertness = 10 ∧
    (aiProcessEntity [] [] 1 eAggr {}).state ≠ ({} : AIState) := by
  have h : (aiProcessEntity [] [] 1 eAggr {}).state.alertness = 10 := by
    norm_num [aiProcessEntity, eAggr, syncWithAiComponent, selectBest,
      selectStep, min_def]
  refine ⟨rfl, h, ?_⟩
  intro heq
  rw [heq] at h
  norm_num at h

/-! ## Theorems about behavior-object purity -/

/-- C6 (amended): a movement behavior object of any kind except wander is
returned unchanged by every tick update (in the source those classes only
read `self.config`); the wander behavior object, by contrast, is mutated by
every enabled update: its direction-change timer is decremented by dt, and
when the decremented timer reaches 0 the stored direction is shifted by the
next random draw and the timer reset to the configured interval.  Decision
behavior objects are never mutated either — none of the six decision
`_execute` effects writes a behavior field, which the embedding reflects by
taking the behavior configuration as read-only input. -/
theorem movement_behaviors_pure_except_wander :
    (∀ (b : MovementBehavior) (e : Entity) (dt : ℚ) (md : MovementData)
       (rands : List ℚ), b.kind.isWander = false →
      (b.update e dt md rands).behavior = b) ∧
    (∀ (nm : String) (s iv mc : ℚ) (w : WanderState) (e : Entity) (dt : ℚ)
       (md : MovementData) (rands : List ℚ),
      (MovementBehavior.update ⟨nm, true, .wander s iv mc w⟩ e dt md rands).behavior
        = ⟨nm, true, .wander s iv mc
            (if w.next_direction_change - dt ≤ 0 then
              { next_direction_change := iv
                current_direction := w.current_direction + rands.headD 0 }
             else { w with
                next_direction_change := w.next_direction_change - dt })⟩) := by
  constructor
  · intro b e dt md rands hnw
    unfold MovementBehavior.update
    split
    · rfl
    · cases hk : b.kind
      case wander s iv mc w => rw [hk] at hnw; simp [MovementKind.isWander] at hnw
      all_goals rfl
  · intro nm s iv mc w e dt md rands
    show (MovementBehavior.update ⟨nm, true, .wander s iv mc w⟩ e dt md rands).behavior = _
    unfold MovementBehavior.update wanderUpdate
    simp only [Bool.true_eq_false, if_false]
    split <;> rfl

theorem movement_behaviors_pure_except_wander_witness :
    (({ name := "seek_target", kind := .seek none 50 150 } : MovementBehavior).kind.isWander
      = false) ∧
    (MovementBehavior.update { name := "seek_target", kind := .seek none 50 150 }
        { id := "e1", type := "ship", position := (0, 0) } 1 {} []).behavior
      = { name := "seek_target", kind := .seek none 50 150 } :=
  ⟨rfl, movement_behaviors_pure_except_wander.1
    { name := "seek_target", kind := .seek none 50 150 }
    { id := "e1", type := "ship", position := (0, 0) } 1 {} [] rfl⟩

/-- C6 counterexample: a wander movement behavior object whose
direction-change timer is 5 is mutated by a single enabled update with
dt = 1 — the timer field drops to 4 — so behavior objects are not all left
unmutated by tick updates. -/
theorem wander_mutates_behavior_fields :
    (MovementBehavior.update
        { name := "random_wander",
          kind := .wander 20 2 1 { next_direction_change := 5, current_direction := 0 } }
        { id := "e1", type := "ship", position := (0, 0) } 1 {} []).behavior
      = { name := "random_wander",
          kind := .wander 20 2 1 { next_direction_change := 4, current_direction := 0 } } ∧
    ({ name := "random_wander",
       kind := .wander 20 2 1 { next_direction_change := 4, current_direction := 0 } }
        : MovementBehavior)
      ≠ { name := "random_wander",
          kind := .wander 20 2 1 { next_direction_change := 5, current_direction := 0 } } := by
  constructor
  · norm_num [MovementBehavior.update, wanderUpdate]
  · intro h
    simp only [MovementBehavior.mk.injEq, MovementKind.wander.injEq,
      WanderState.mk.injEq] at h
    norm_num at h

/-! ## Theorems about numeric edge-case guards -/

/-- The model of `math.sqrt` is exact at 0. -/
theorem sqrtQ_zero : sqrtQ 0 = 0 := by
  simp [sqrtQ]

/-- The distance from a point to itself evaluates to 0. -/
theorem distQ_self (a : ℚ × ℚ) : distQ a a = 0 := by
  simp [distQ, sqrtQ]

/-- C9: behavior updates guard the numeric edge cases and return normally:
(a) the patrol decision effect with an empty waypoint list returns early
with the state unchanged, for any previously stored goal-data (in
particular any saved waypoint index); (b) the trade decision effect with an
empty trade-route list likewise; (c) the flee decision effect with the
nearest threat at the entity's own position — a zero-length direction
vector before normalization — skips the normalization (no division) and
performs only the energy update; (d) the patrol movement update with an
empty configured waypoint list returns early leaving kinematics and entity
unchanged, for any stored path/index; (e) the seek movement update whose
target equals the entity's position — zero-length direction — returns early
leaving kinematics and entity unchanged.  No case raises an out-of-range
indexing or division-by-zero error. -/
theorem empty_lists_and_zero_vectors_guarded :
    (∀ (tol c dt : ℚ) (e : Entity) (st : AIState),
      patrolExecute [] tol c e st dt = { state := st }) ∧
    (∀ (tol wt c dt : ℚ) (e : Entity) (st : AIState),
      tradeExecute [] tol wt c e st dt = { state := st }) ∧
    (∀ (p : ℚ × ℚ) (fr c dt : ℚ) (st : AIState),
      fleeExecute 80 ["fighter"] fr c
          { id := "e1", type := "ship", position := p } st
          [{ id := "e1", type := "ship", position := p },
           { id := "t1", type := "fighter", position := p }] dt
        = { state := { st with energy := max 0 (st.energy - c * dt) } }) ∧
    (∀ (s tol dt : ℚ) (e : Entity) (md : MovementData),
      patrolMoveUpdate [] s tol e dt md = (md, e, none)) ∧
    (∀ (p : ℚ × ℚ) (s f dt : ℚ) (md : MovementData),
      seekUpdate (some (.pair p.1 p.2)) s f
          { id := "e1", type := "ship", position := p } dt md
        = (md, { id := "e1", type := "ship", position := p }, none)) := by
  refine ⟨?_, ?_, ?_, ?_, ?_⟩
  · intro tol c dt e st
    simp [patrolExecute]
  · intro tol wt c dt e st
    simp [tradeExecute]
  · intro p fr c dt st
    have hne : ({ id := "t1", type := "fighter", position := p } : Entity)
        ≠ { id := "e1", type := "ship", position := p } := by
      simp
    have hscan : closestOfType { id := "e1", type := "ship", position := p }
        ["fighter"] 80
        [{ id := "e1", type := "ship", position := p },
         { id := "t1", type := "fighter", position := p }]
        = some ({ id := "t1", type := "fighter", position := p }, 0) := by
      simp [closestOfType, hne, distQ_self]
    simp [fleeExecute, hscan, sqrtQ]
  · intro s tol dt e md
    simp [patrolMoveUpdate]
  · intro p s f dt md
    simp [seekUpdate, PyVal.truthy, sqrtQ_zero]

/-! ## Theorems about the component round trip -/

/-- C8 (amended): for every well-formed persisted 'ai' component record —
one whose memory record is present and whose memory's current goal agrees
with the component's top-level current goal (every record the mirror itself
writes has this shape, since the mirror fills both from the same state
field) — the component → runtime-state → component round trip is the
identity.  (When the two goals disagree, the round trip overwrites memory's
current goal with the top-level one — see the counterexample.) -/
theorem component_roundtrip_identity (c : AiComponent) (m : AiComponentMemory)
    (hm : c.memory = some m) (hg : m.current_goal = c.current_goal) :
    componentRoundTrip c = some c := by
  rcases c with ⟨cmem, cgoal, caity, caggr, cint⟩
  rcases m with ⟨lst, lstt, ct, cg, gd, bb⟩
  dsimp only at hm hg
  subst hm
  subst hg
  unfold componentRoundTrip loadAiFromComponent syncWithAiComponent
  dsimp only
  split_ifs <;> rfl

theorem component_roundtrip_identity_witness :
    cConsistent.memory = some { current_goal := some "g" } ∧
    ({ current_goal := some "g" } : AiComponentMemory).current_goal
      = cConsistent.current_goal ∧
    componentRoundTrip cConsistent = some cConsistent :=
  ⟨rfl, rfl, component_roundtrip_identity cConsistent _ rfl rfl⟩

/-- C8 counterexample: on a well-formed component whose memory.current_goal
is "a" while the top-level current_goal is "b", the round trip returns a
record whose memory.current_goal has been overwritten to "b" — not the
original record: the loader replaces the reconstructed memory's current goal
with the component's top-level one (`ai_system.py` line 644), so the mirror
is not the identity on all well-formed records. -/
theorem roundtrip_not_identity_on_inconsistent_goal :
    componentRoundTrip cInconsistent
      = some { memory := some { current_goal := some "b" },
               current_goal := some "b" } ∧
    componentRoundTrip cInconsistent ≠ some cInconsistent := by
  have h : componentRoundTrip cInconsistent
      = some { memory := some { current_goal := some "b" },
               current_goal := some "b" } := by
    unfold componentRoundTrip loadAiFromComponent syncWithAiComponent
      cInconsistent
    dsimp only
    split_ifs <;> rfl
  refine ⟨h, ?_⟩
  rw [h]
  simp [cInconsistent]

/-! ## Theorems about auto-assignment from components -/

theorem assocGet_nil (k : String) : assocGet ([] : List (String × α)) k = none :=
  rfl

theorem assocGet_cons (p : String × α) (l : List (String × α)) (k : String) :
    assocGet (p :: l) k = if p.1 = k then some p.2 else assocGet l k := by
  unfold assocGet
  by_cases h : p.1 = k
  · rw [List.find?_cons_of_pos _ (by simpa using h), if_pos h]
    rfl
  · rw [List.find?_cons_of_neg _ (by simpa using h), if_neg h]

theorem assocGet_append (l t : List (String × α)) (k : String) :
    assocGet (l ++ t) k
      = match assocGet l k with
        | some v => some v
        | none => assocGet t k := by
  induction l with
  | nil => simp [assocGet_nil]
  | cons p l ih =>
      rw [List.cons_append, assocGet_cons, assocGet_cons]
      by_cases h : p.1 = k <;> simp [h, ih]

/-- Appending a fresh entry does not disturb keys already present. -/
theorem assocGet_append_some (l : List (String × α)) (t : List (String × α))
    (k : String) (x : α) (h : assocGet l k = some x) :
    assocGet (l ++ t) k = some x := by
  rw [assocGet_append, h]

/-- Appending an entry for an absent key makes it retrievable. -/
theorem assocGet_append_self (l : List (String × α)) (k : String) (v : α)
    (h : assocGet l k = none) : assocGet (l ++ [(k, v)]) k = some v := by
  rw [assocGet_append, h, assocGet_cons]
  simp

/-- Appending an entry under a different key preserves absence. -/
theorem assocGet_append_ne (l : List (String × α)) (k : String) (v : α)
    (id : String) (hne : k ≠ id) (h : assocGet l id = none) :
    assocGet (l ++ [(k, v)]) id = none := by
  rw [assocGet_append, h, assocGet_cons]
  simp [hne, assocGet_nil]

/-- One step of the auto-assignment fold. -/
theorem autoAssign_cons (sts : List (String × AIState)) (e : Entity)
    (tl : List Entity) :
    autoAssignAiFromComponents sts (e :: tl)
      = autoAssignAiFromComponents
          (if (assocGet sts e.id).isSome = true then sts
           else match loadAiFromComponent e.ai_component with
             | some st => sts ++ [(e.id, st)]
             | none => sts) tl :=
  rfl

/-- Auto-assignment never overwrites an existing runtime state. -/
theorem autoAssign_preserves_some (entities : List Entity) :
    ∀ (sts : List (String × AIState)) (id : String) (x : AIState),
      assocGet sts id = some x →
      assocGet (autoAssignAiFromComponents sts entities) id = some x := by
  induction entities with
  | nil => intro sts id x h; exact h
  | cons e tl ih =>
      intro sts id x h
      rw [autoAssign_cons]
      by_cases hs : (assocGet sts e.id).isSome = true
      · rw [if_pos hs]; exact ih _ id x h
      · rw [if_neg hs]
        cases hl : loadAiFromComponent e.ai_component with
        | none => exact ih _ id x h
        | some st =>
            exact ih _ id x (assocGet_append_some sts [(e.id, st)] id x h)

/-- Auto-assignment does not invent states for ids no entity carries. -/
theorem autoAssign_none_of_absent (entities : List Entity) :
    ∀ (sts : List (String × AIState)) (id : String),
      assocGet sts id = none → (∀ e ∈ entities, e.id ≠ id) →
      assocGet (autoAssignAiFromComponents sts entities) id = none := by
  induction entities with
  | nil => intro sts id h _; exact h
  | cons e tl ih =>
      intro sts id h habs
      rw [autoAssign_cons]
      by_cases hs : (assocGet sts e.id).isSome = true
      · rw [if_pos hs]
        exact ih _ id h (fun e' he' => habs e' (List.mem_cons_of_mem _ he'))
      · rw [if_neg hs]
        cases hl : loadAiFromComponent e.ai_component with
        | none =>
            exact ih _ id h (fun e' he' => habs e' (List.mem_cons_of_mem _ he'))
        | some st =>
            exact ih _ id
              (assocGet_append_ne sts e.id st id
                (habs e (List.mem_cons_self _ _)) h)
              (fun e' he' => habs e' (List.mem_cons_of_mem _ he'))

/-- For an entity with no prior runtime state (ids unique across the list),
auto-assignment installs exactly the state loaded from its 'ai' component
(or nothing, when the component is absent). -/
theorem autoAssign_creates (entities : List Entity) :
    ∀ (sts : List (String × AIState)) (e : Entity),
      (entities.map Entity.id).Nodup → e ∈ entities →
      assocGet sts e.id = none →
      assocGet (autoAssignAiFromComponents sts entities) e.id
        = loadAiFromComponent e.ai_component := by
  induction entities with
  | nil => intro sts e _ he; simp at he
  | cons x tl ih =>
      intro sts e hnd he hnone
      rw [List.map_cons, List.nodup_cons] at hnd
      obtain ⟨hx, hndtl⟩ := hnd
      rw [autoAssign_cons]
      rcases List.mem_cons.mp he with rfl | hetl
      · rw [if_neg (by simp [hnone])]
        cases hl : loadAiFromComponent e.ai_component with
        | none =>
            exact autoAssign_none_of_absent tl sts e.id hnone
              (fun e' he' heq => hx (heq ▸ List.mem_map_of_mem Entity.id he'))
        | some st =>
            exact autoAssign_preserves_some tl _ e.id st
              (assocGet_append_self sts e.id st hnone)
      · have hxe : x.id ≠ e.id :=
          fun heq => hx (heq ▸ List.mem_map_of_mem Entity.id hetl)
        by_cases hs : (assocGet sts x.id).isSome = true
        · rw [if_pos hs]; exact ih _ e hndtl hetl hnone
        · rw [if_neg hs]
          cases hl : loadAiFromComponent x.ai_component with
          | none => exact ih _ e hndtl hetl hnone
          | some st =>
              exact ih _ e hndtl hetl
                (assocGet_append_ne sts x.id st e.id hxe hnone)

/-- The state created from a component is determined by its `ai_type`. -/
theorem loadAiFromComponent_table (c : AiComponent) :
    ∃ st : AIState, loadAiFromComponent (some c) = some st ∧
      (c.ai_type = "aggressive" →
        st.behavior_name = "pirate_hunt" ∧ st.energy = 80 ∧ st.alertness = 60) ∧
      (c.ai_type = "defensive" →
        st.behavior_name = "station_guard" ∧ st.energy = 90 ∧ st.alertness = 30) ∧
      (c.ai_type = "merchant" →
        st.behavior_name = "trade_run" ∧ st.energy = 70 ∧ st.alertness = 20) ∧
      (c.ai_type ≠ "aggressive" → c.ai_type ≠ "defensive" →
        c.ai_type ≠ "merchant" →
        st.behavior_name = "default_idle" ∧ st.energy = 100 ∧ st.alertness = 0) := by
  unfold loadAiFromComponent
  dsimp only
  split_ifs with h1 h2 h3 <;>
    exact ⟨_, rfl, by intro h; simp_all, by intro h; simp_all,
      by intro h; simp_all, by intro ha hd hm; simp_all⟩

/-- C10: every decision-subsystem update first auto-creates a runtime state
for each entity that carries a persisted 'ai' component and has no state yet
(the first statement in `AISystem.update` is the call to
`auto_assign_ai_from_components` — see its definition): existing states are
never overwritten, a state-less entity (under unique ids) receives exactly
the state loaded from its component, and the loaded state's behavior name,
energy and alertness are determined solely by the component's `ai_type`:
'aggressive' ↦ (pirate_hunt, 80, 60), 'defensive' ↦ (station_guard, 90, 30),
'merchant' ↦ (trade_run, 70, 20), anything else ↦ (default_idle, 100, 0). -/
theorem auto_assign_creates_states_from_ai_type :
    (∀ (sts : List (String × AIState)) (entities : List Entity) (id : String)
       (x : AIState), assocGet sts id = some x →
      assocGet (autoAssignAiFromComponents sts entities) id = some x) ∧
    (∀ (sts : List (String × AIState)) (entities : List Entity) (e : Entity),
      (entities.map Entity.id).Nodup → e ∈ entities →
      assocGet sts e.id = none →
      assocGet (autoAssignAiFromComponents sts entities) e.id
        = loadAiFromComponent e.ai_component) ∧
    (∀ c : AiComponent, ∃ st : AIState,
      loadAiFromComponent (some c) = some st ∧
      (c.ai_type = "aggressive" →
        st.behavior_name = "pirate_hunt" ∧ st.energy = 80 ∧ st.alertness = 60) ∧
      (c.ai_type = "defensive" →
        st.behavior_name = "station_guard" ∧ st.energy = 90 ∧ st.alertness = 30) ∧
      (c.ai_type = "merchant" →
        st.behavior_name = "trade_run" ∧ st.energy = 70 ∧ st.alertness = 20) ∧
      (c.ai_type ≠ "aggressive" → c.ai_type ≠ "defensive" →
        c.ai_type ≠ "merchant" →
        st.behavior_name = "default_idle" ∧ st.energy = 100 ∧ st.alertness = 0)) :=
  ⟨fun sts entities id x h => autoAssign_preserves_some entities sts id x h,
   fun sts entities e hnd he hn => autoAssign_creates entities sts e hnd he hn,
   loadAiFromComponent_table⟩

theorem auto_assign_creates_states_from_ai_type_witness :
    (([eMerchant].map Entity.id).Nodup ∧ eMerchant ∈ [eMerchant] ∧
     assocGet ([] : List (String × AIState)) eMerchant.id = none) ∧
    assocGet (autoAssignAiFromComponents [] [eMerchant]) eMerchant.id
      = loadAiFromComponent eMerchant.ai_component := by
  refine ⟨⟨by simp, by simp, rfl⟩, ?_⟩
  exact auto_assign_creates_states_from_ai_type.2.1 [] [eMerchant] eMerchant
    (by simp) (by simp) rfl

/-! ## Theorems about the decision → movement synchronization order -/

/-- One decision tick of `sceneC2`'s entity: the patrol behavior is selected
(energy 100 > 20, priority 10 > -1) and writes `w` into goal-data. -/
theorem aiProcess_sceneC2 (p w : ℚ × ℚ) (tol c dt : ℚ) (ents : List Entity) :
    aiProcessEntity [{ name := "pat", priority := 10, kind := .patrol [w] tol c }]
        ents dt { id := "e1", type := "ship", position := p }
        { behavior_name := "pat" }
      = { entity := { id := "e1", type := "ship", position := p },
          state := stAfterC2 p w tol c dt, error := none } := by
  by_cases hbr : distQ p w < tol <;>
    norm_num [aiProcessEntity, stAfterC2, syncWithAiComponent, selectBest,
      selectStep, AIBehavior.can_execute, canExecuteKind, AIBehavior.execute,
      executeKind, patrolExecute, pyListGet, PyVal.toIndex, assocGet_nil,
      assocSet, hbr,
      (show ¬(("current_waypoint" : String) = "target_position") from by decide)]

/-- The decision-subsystem update on `sceneC2`: the state table is rewritten
in place with the post-tick state and the entity is untouched (it has no
'ai' component). -/
theorem aiUpdate_sceneC2 (p w : ℚ × ℚ) (tol c dt : ℚ) :
    AISystem.update
        { behaviors := [{ name := "pat", priority := 10, kind := .patrol [w] tol c }]
          entity_ai_states := [("e1", { behavior_name := "pat" })] }
        [{ id := "e1", type := "ship", position := p }] dt
      = .ok ({ behaviors := [{ name := "pat", priority := 10, kind := .patrol [w] tol c }]
               entity_ai_states := [("e1", stAfterC2 p w tol c dt)] },
             [{ id := "e1", type := "ship", position := p }]) := by
  norm_num [AISystem.update, autoAssignAiFromComponents, assocGet_cons,
    assocGet_nil, assocSet, aiProcess_sceneC2]

/-- The movement update on `sceneC2`: the seek behavior has no configured
target and the kinematics target is unset, so it returns early and the
movement system and entity are unchanged. -/
theorem mvUpdate_sceneC2 (p : ℚ × ℚ) (s f dt : ℚ) (rands : List ℚ) :
    MovementSystem.update
        { behaviors := [("seekb", { name := "seekb", kind := .seek none s f })]
          entity_movements := [("e1", {})]
          entity_behaviors := [("e1", "seekb")] }
        [{ id := "e1", type := "ship", position := p }] dt rands
      = .ok ({ behaviors := [("seekb", { name := "seekb", kind := .seek none s f })]
               entity_movements := [("e1", {})]
               entity_behaviors := [("e1", "seekb")] },
             [{ id := "e1", type := "ship", position := p }], rands) := by
  norm_num [MovementSystem.update, MovementBehavior.update, seekUpdate,
    assocGet_cons, assocGet_nil, assocSet]

/-- The synchronization step on `sceneC2` after the decision tick: the
target position stored in goal-data is copied onto the kinematics record. -/
theorem sync_sceneC2 (p w : ℚ × ℚ) (tol c s f dt : ℚ) :
    syncAiWithMovement [{ id := "e1", type := "ship", position := p }]
        { behaviors := [{ name := "pat", priority := 10, kind := .patrol [w] tol c }]
          entity_ai_states := [("e1", stAfterC2 p w tol c dt)] }
        { behaviors := [("seekb", { name := "seekb", kind := .seek none s f })]
          entity_movements := [("e1", {})]
          entity_behaviors := [("e1", "seekb")] }
      = { behaviors := [("seekb", { name := "seekb", kind := .seek none s f })]
          entity_movements := [("e1", { target_position := some (.pair w.1 w.2) })]
          entity_behaviors := [("e1", "seekb")] } := by
  have htp : assocGet (stAfterC2 p w tol c dt).memory.goal_data "target_position"
      = some (.pair w.1 w.2) := by
    unfold stAfterC2
    by_cases hbr : distQ p w < tol <;>
      simp [hbr, assocGet_cons, assocGet_nil,
        (show ¬(("current_waypoint" : String) = "target_position") from by decide)]
  norm_num [syncAiWithMovement, MovementSystem.set_target, assocGet_cons,
    assocGet_nil, assocSet, htp]

/-- C2 (amended): within one tick of `_update_game_logic`, a target position
written into decision memory's goal-data by the decision update does appear
on the entity's movement kinematics target field by the end of that same
tick's update — but the synchronization step runs after the movement update,
not before it, so the movement update of that tick still reads the previous
target: here the kinematics target starts unset, the decision update writes
waypoint `w`, the tick ends with the target field set to `w`, and the
entity's position is unchanged because the seek update saw no target yet. -/
theorem target_set_same_tick_but_movement_uses_stale
    (p w : ℚ × ℚ) (tol c s f dt : ℚ) (rands : List ℚ) :
    (updateGameLogic (sceneC2 p w tol c s f) dt rands).map
        (fun ms => ((assocGet ms.movement.entity_movements "e1").map
            (fun md => md.target_position),
          ms.entities.map (fun e => e.position)))
      = .ok (some (some (.pair w.1 w.2)), [p]) := by
  unfold updateGameLogic sceneC2
  simp only [List.isEmpty_cons, Bool.false_eq_true, if_false]
  rw [aiUpdate_sceneC2]
  dsimp only
  rw [mvUpdate_sceneC2]
  dsimp only
  rw [sync_sceneC2]
  simp [Except.map, assocGet_cons]

/-- Running `seekUpdate` with no configured target when the stored kinematics
target is a pair at positive distance `d` from the entity and the steering
force `sf` does not exceed `max_force`: the acceleration becomes the steering
vector, the velocity gains `steering * dt`, and the entity moves by
`velocity * dt`. -/
theorem seekUpdate_within_force (s f dt : ℚ) (e : Entity) (md : MovementData)
    (tx ty d sf : ℚ)
    (htp : md.target_position = some (.pair tx ty))
    (hd : sqrtQ ((tx - e.position.1) * (tx - e.position.1)
        + (ty - e.position.2) * (ty - e.position.2)) = d)
    (hd0 : d > 0)
    (hsf : sqrtQ (((tx - e.position.1) / d * s - md.velocity.1)
          * ((tx - e.position.1) / d * s - md.velocity.1)
        + ((ty - e.position.2) / d * s - md.velocity.2)
          * ((ty - e.position.2) / d * s - md.velocity.2)) = sf)
    (hsf2 : ¬ sf > f) :
    seekUpdate none s f e dt md =
      ({ md with
          acceleration := ((tx - e.position.1) / d * s - md.velocity.1,
            (ty - e.position.2) / d * s - md.velocity.2),
          velocity := (md.velocity.1
              + ((tx - e.position.1) / d * s - md.velocity.1) * dt,
            md.velocity.2
              + ((ty - e.position.2) / d * s - md.velocity.2) * dt) },
       { e with position := (e.position.1
              + (md.velocity.1
                + ((tx - e.position.1) / d * s - md.velocity.1) * dt) * dt,
            e.position.2
              + (md.velocity.2
                + ((ty - e.position.2) / d * s - md.velocity.2) * dt) * dt) },
       none) := by
  simp only [seekUpdate, htp, PyVal.truthy]
  rw [if_neg (show ¬(true = false) from by decide), hd, if_pos hd0, hsf,
    if_neg hsf2]

/-- Dispatch of `MovementBehavior.update` for an enabled seek-kind behavior:
the update is exactly `seekUpdate` on the behavior's configuration, and the
behavior object itself is returned unchanged. -/
theorem MovementBehavior.update_seek (b : MovementBehavior) (t : Option PyVal)
    (s f : ℚ) (e : Entity) (dt : ℚ) (md : MovementData) (rands : List ℚ)
    (hk : b.kind = .seek t s f) (he : b.enabled = true) :
    b.update e dt md rands =
      { behavior := b, data := (seekUpdate t s f e dt md).1,
        entity := (seekUpdate t s f e dt md).2.1, rands := rands,
        error := (seekUpdate t s f e dt md).2.2 } := by
  simp only [MovementBehavior.update, hk, he]
  rw [if_neg (show ¬(true = false) from by decide)]

/-- One-entity instance of `MovementSystem.update`: when the entity has a
behavior assignment naming a registered behavior and a kinematics record,
and that behavior's update returns without a raise, the system rewrites the
behavior and kinematics tables in place and returns the updated entity. -/
theorem MovementSystem.update_single (ms : MovementSystem) (e : Entity)
    (dt : ℚ) (rands : List ℚ) (bname : String) (b : MovementBehavior)
    (md : MovementData) (r : MoveExec)
    (h1 : assocGet ms.entity_behaviors e.id = some bname)
    (h2 : assocGet ms.behaviors bname = some b)
    (h3 : assocGet ms.entity_movements e.id = some md)
    (hr : b.update e dt md rands = r) (hok : r.error = none) :
    MovementSystem.update ms [e] dt rands =
      .ok ({ ms with
               behaviors := assocSet ms.behaviors bname r.behavior
               entity_movements := assocSet ms.entity_movements e.id r.data },
           [r.entity], r.rands) := by
  simp only [MovementSystem.update, List.foldl_cons, List.foldl_nil, h1, h2,
    h3, hr, hok, List.nil_append]

/-- The movement update when the kinematics target HAS been set before the
movement update (concrete instance: entity at (0,0), target (30,40), seek
speed 40, max force 100, dt = 1/20): the seek behavior accelerates toward
the target and moves the entity to (3/50, 2/25). -/
theorem mvUpdate_targeted_sceneC2 :
    MovementSystem.update
        { behaviors := [("seekb", { name := "seekb", kind := .seek none 40 100 })]
          entity_movements := [("e1", { target_position := some (.pair 30 40) })]
          entity_behaviors := [("e1", "seekb")] }
        [{ id := "e1", type := "ship", position := ((0 : ℚ), (0 : ℚ)) }]
        (1/20) []
      = .ok ({ behaviors := [("seekb", { name := "seekb", kind := .seek none 40 100 })]
               entity_movements := [("e1",
                 { velocity := ((6 : ℚ)/5, (8 : ℚ)/5)
                   acceleration := ((24 : ℚ), (32 : ℚ))
                   target_position := some (.pair 30 40) })]
               entity_behaviors := [("e1", "seekb")] },
             [{ id := "e1", type := "ship", position := ((3 : ℚ)/50, (2 : ℚ)/25) }],
             []) := by
  have hn2500 : Nat.sqrt 2500 = 50 := by
    have h : (2500 : ℕ) = 50 * 50 := by norm_num
    rw [h, Nat.sqrt_eq]
  have hn1600 : Nat.sqrt 1600 = 40 := by
    have h : (1600 : ℕ) = 40 * 40 := by norm_num
    rw [h, Nat.sqrt_eq]
  have hs2500 : sqrtQ 2500 = 50 := by
    unfold sqrtQ
    norm_num
    rw [show Int.toNat (2500 : ℤ) = (2500 : ℕ) from rfl, hn2500]
    norm_num
  have hs1600 : sqrtQ 1600 = 40 := by
    unfold sqrtQ
    norm_num
    rw [show Int.toNat (1600 : ℤ) = (1600 : ℕ) from rfl, hn1600]
    norm_num
  have hd : sqrtQ (((30 : ℚ) - 0) * (30 - 0) + (40 - 0) * (40 - 0)) = 50 := by
    rw [show (((30 : ℚ) - 0) * (30 - 0) + (40 - 0) * (40 - 0)) = 2500 from by
      norm_num]
    exact hs2500
  have hsf : sqrtQ ((((30 : ℚ) - 0) / 50 * 40 - 0)
        * (((30 : ℚ) - 0) / 50 * 40 - 0)
      + (((40 : ℚ) - 0) / 50 * 40 - 0) * (((40 : ℚ) - 0) / 50 * 40 - 0))
      = 40 := by
    rw [show ((((30 : ℚ) - 0) / 50 * 40 - 0) * (((30 : ℚ) - 0) / 50 * 40 - 0)
      + (((40 : ℚ) - 0) / 50 * 40 - 0) * (((40 : ℚ) - 0) / 50 * 40 - 0)) = 1600
      from by norm_num]
    exact hs1600
  have hseek : seekUpdate none 40 100
      { id := "e1", type := "ship", position := ((0 : ℚ), (0 : ℚ)) } (1/20)
      { target_position := some (.pair 30 40) }
      = ({ velocity := ((6 : ℚ)/5, (8 : ℚ)/5)
           acceleration := ((24 : ℚ), (32 : ℚ))
           target_position := some (.pair 30 40) },
         { id := "e1", type := "ship", position := ((3 : ℚ)/50, (2 : ℚ)/25) },
         none) := by
    refine (seekUpdate_within_force 40 100 (1/20)
      { id := "e1", type := "ship", position := ((0 : ℚ), (0 : ℚ)) }
      { target_position := some (.pair 30 40) } 30 40 50 40
      rfl hd (by norm_num) hsf (by norm_num)).trans ?_
    norm_num
  have hb : MovementBehavior.update
      { name := "seekb", kind := .seek none 40 100 }
      { id := "e1", type := "ship", position := ((0 : ℚ), (0 : ℚ)) } (1/20)
      { target_position := some (.pair 30 40) } []
      = { behavior := { name := "seekb", kind := .seek none 40 100 },
          data := { velocity := ((6 : ℚ)/5, (8 : ℚ)/5)
                    acceleration := ((24 : ℚ), (32 : ℚ))
                    target_position := some (.pair 30 40) },
          entity := { id := "e1", type := "ship",
                      position := ((3 : ℚ)/50, (2 : ℚ)/25) },
          rands := [], error := none } := by
    rw [MovementBehavior.update_seek _ none 40 100 _ _ _ _ rfl rfl, hseek]
  refine (MovementSystem.update_single _ _ (1/20) [] "seekb" _ _ _
    (by simp [assocGet_cons]) (by simp [assocGet_cons])
    (by simp [assocGet_cons]) hb rfl).trans ?_
  simp [assocSet]

/-- Composition rule for the spec-prescribed tick order: given the results
of the decision update, the synchronization step and the movement update,
the spec-ordered tick is their sequential composition. -/
theorem updateGameLogicSpecOrdered_eq (ms : ManagerState) (dt : ℚ)
    (rands : List ℚ) (ai1 : AISystem) (ents1 : List Entity)
    (mv1 mv2 : MovementSystem) (ents2 : List Entity) (rs : List ℚ)
    (hne : ms.entities.isEmpty = false)
    (hai : AISystem.update ms.ai ms.entities dt = .ok (ai1, ents1))
    (hsync : syncAiWithMovement ents1 ai1 ms.movement = mv1)
    (hmv : MovementSystem.update mv1 ents1 dt rands = .ok (mv2, ents2, rs)) :
    updateGameLogicSpecOrdered ms dt rands
      = .ok { entities := ents2, ai := ai1, movement := mv2 } := by
  unfold updateGameLogicSpecOrdered
  rw [if_neg (by simp [hne]), hai]
  dsimp only
  rw [hsync, hmv]

/-- C2 counterexample: in the concrete scene (entity at (0,0), patrol
waypoint (30,40), arrival tolerance 1, seek speed 40 and max force 100,
dt = 1/20) the source tick leaves the entity at (0,0) — the movement update
ran before the synchronization step and saw no target — whereas the tick
prescribed by the spec's ordering (decision update, then synchronization,
then movement update) moves the entity to (3/50, 2/25).  So the
synchronization step does not run before (or as part of) the movement
update, and a decision's target affects movement only one tick later. -/
theorem tick_order_differs_from_sync_before_movement :
    (updateGameLogic (sceneC2 (0, 0) (30, 40) 1 2 40 100) (1/20) []).map
        (fun ms => ms.entities.map (fun e => e.position))
      = .ok [((0 : ℚ), (0 : ℚ))] ∧
    (updateGameLogicSpecOrdered (sceneC2 (0, 0) (30, 40) 1 2 40 100) (1/20) []).map
        (fun ms => ms.entities.map (fun e => e.position))
      = .ok [((3 : ℚ)/50, (2 : ℚ)/25)] ∧
    updateGameLogic (sceneC2 (0, 0) (30, 40) 1 2 40 100) (1/20) []
      ≠ updateGameLogicSpecOrdered (sceneC2 (0, 0) (30, 40) 1 2 40 100) (1/20) [] := by
  have h1 : (updateGameLogic (sceneC2 (0, 0) (30, 40) 1 2 40 100) (1/20) []).map
        (fun ms => ms.entities.map (fun e => e.position))
      = .ok [((0 : ℚ), (0 : ℚ))] := by
    unfold updateGameLogic sceneC2
    simp only [List.isEmpty_cons, Bool.false_eq_true, if_false]
    rw [aiUpdate_sceneC2]
    dsimp only
    rw [mvUpdate_sceneC2]
    dsimp only
    rw [sync_sceneC2]
    simp [Except.map]
  have hsync := sync_sceneC2 (0, 0) (30, 40) 1 2 40 100 (1/20)
  norm_num at hsync
  have h2full := updateGameLogicSpecOrdered_eq
    (sceneC2 (0, 0) (30, 40) 1 2 40 100) (1/20) [] _ _ _ _ _ _
    rfl (aiUpdate_sceneC2 (0, 0) (30, 40) 1 2 (1/20))
    hsync mvUpdate_targeted_sceneC2
  have h2 : (updateGameLogicSpecOrdered (sceneC2 (0, 0) (30, 40) 1 2 40 100)
        (1/20) []).map (fun ms => ms.entities.map (fun e => e.position))
      = .ok [((3 : ℚ)/50, (2 : ℚ)/25)] := by
    rw [h2full]
    simp [Except.map]
  refine ⟨h1, h2, ?_⟩
  intro heq
  rw [heq, h2] at h1
  norm_num at h1

